import Mathlib

/-!
Verification development for the climaX climate-stress metric engine
(`src/climax/climate_data.py` and `src/climax/vpd_heatsum.py`).

Embedding conventions:
* Calendar dates are modelled by their proleptic ordinal, an integer
  (`datetime.date.toordinal`), so "the previous day" is `day - 1`.
* Python floats are modelled by rationals `ℚ` (exact arithmetic); the only
  transcendental computation, the Penman evaporation estimator, is modelled
  over the reals `ℝ`.
* Python dicts are modelled by association lists with first-match lookup,
  insertion replacing the first matching key in place and otherwise
  appending at the end — exactly the Python dict key-update/iteration-order
  semantics.
* Functions that can raise (`ValueError` on an unexpected treatment id,
  `ZeroDivisionError`, a failing `assert`) return `Option`, with `none`
  standing for the raised exception.
-/

namespace Climax

/-- Experimental treatment branch: `'control'` or `'stress'` strings in the
Python source. -/
inductive Treatment : Type
  | control : Treatment
  | stress : Treatment
  deriving DecidableEq, Repr

/-- First-match lookup in an association list: Python `d[k]` / `k in d`
(`some` iff the key is present). -/
def dlookup {κ α : Type} [DecidableEq κ] : List (κ × α) → κ → Option α
  | [], _ => none
  | (k, v) :: rest, key => if key = k then some v else dlookup rest key

/-- Python dict assignment `d[k] = v`: replaces the value at the first
occurrence of the key, keeping its position, otherwise appends a new entry
at the end (dict insertion order). -/
def dictInsert {κ α : Type} [DecidableEq κ] : List (κ × α) → κ → α → List (κ × α)
  | [], k, v => [(k, v)]
  | (k', v') :: rest, k, v =>
    if k = k' then (k, v) :: rest else (k', v') :: dictInsert rest k v

/-- Python `defaultdict(list)`: `d[k].append(v)` appends to the existing
list at the key, creating the key with `[v]` at the end if absent. -/
def dictAppend {κ α : Type} [DecidableEq κ] : List (κ × List α) → κ → α → List (κ × List α)
  | [], k, v => [(k, [v])]
  | (k', l) :: rest, k, v =>
    if k = k' then (k', l ++ [v]) :: rest else (k', l) :: dictAppend rest k v

/-- climate_data.py `treatment_type` (lines 83-93): treatment ids 169 and 171
map to control, 170 to stress, anything else raises `ValueError` (modelled as
`none`). -/
def treatment_type (treatment_id : ℤ) : Option Treatment :=
  if treatment_id = 169 ∨ treatment_id = 171 then some Treatment.control
  else if treatment_id = 170 then some Treatment.stress
  else none

/-- climate_data.py `are_consecutive` (lines 67-80): the set of date ordinals
spans exactly `card - 1` between its max and min.  (Python raises on an empty
input; the model returns `false` there, a case no claim exercises.) -/
def are_consecutive (dates : List ℤ) : Bool :=
  match dates.dedup.max?, dates.dedup.min? with
  | some hi, some lo => hi - lo = dates.dedup.length - 1
  | _, _ => false

/-- Soil water state: the Python `defaultdict(lambda: defaultdict(float))`
mapping a date to a per-treatment map of water amounts. -/
abbrev SoilWater : Type := List (ℤ × List (Treatment × ℚ))

/-- climate_data.py `yesterdays_soil_value` (lines 139-165): the previous
day's value for the treatment, defaulting to `0.0` when either the previous
day or the treatment is absent. -/
def yesterdays_soil_value (soil_water : SoilWater) (day : ℤ) (treatment : Treatment) : ℚ :=
  match dlookup soil_water (day - 1) with
  | some inner => (dlookup inner treatment).getD 0
  | none => 0

/-- Python `soil_water[day][treatment] = v` on the nested defaultdict. -/
def swSet (soil_water : SoilWater) (day : ℤ) (treatment : Treatment) (v : ℚ) : SoilWater :=
  dictInsert soil_water day (dictInsert ((dlookup soil_water day).getD []) treatment v)

/-- climate_data.py `get_trial_daterange`/`generate_daterange` (lines 21-64):
the consecutive run of `n` dates starting at `start`, mirroring the generator
loop `yield current; current += 1`. -/
def daterange (start : ℤ) : ℕ → List ℤ
  | 0 => []
  | n + 1 => start :: daterange (start + 1) n

/-- Fill-phase body for one irrigation row `(irri_amount, treatment_id)`
(climate_data.py lines 207-213): gain is precipitation plus the irrigation
amount, capped at `soilVolume`. -/
def fill_irrigation_row (precipitation : List (ℤ × ℚ)) (soilVolume : ℚ) (day : ℤ)
    (sw : SoilWater) (row : ℚ × ℤ) : Option SoilWater :=
  (treatment_type row.2).map fun treatment =>
    swSet sw day treatment
      (min soilVolume (((dlookup precipitation day).getD 0 + row.1) +
        yesterdays_soil_value sw day treatment))

/-- Fill-phase body for a day without irrigation (climate_data.py lines
214-219): the precipitation gain is applied to control then stress. -/
def fill_no_irrigation (precipitation : List (ℤ × ℚ)) (soilVolume : ℚ) (day : ℤ)
    (sw : SoilWater) : SoilWater :=
  let waterGain := (dlookup precipitation day).getD 0
  let sw1 := swSet sw day Treatment.control
    (min soilVolume (waterGain + yesterdays_soil_value sw day Treatment.control))
  swSet sw1 day Treatment.stress
    (min soilVolume (waterGain + yesterdays_soil_value sw1 day Treatment.stress))

/-- Steady-state body for one irrigation row (climate_data.py lines 224-232):
net water is yesterday's value minus evaporation plus precipitation plus the
irrigation amount, clamped to `[0, soilVolume]`. -/
def steady_irrigation_row (precipitation evaporation : List (ℤ × ℚ)) (soilVolume : ℚ)
    (day : ℤ) (sw : SoilWater) (row : ℚ × ℤ) : Option SoilWater :=
  (treatment_type row.2).map fun treatment =>
    swSet sw day treatment
      (max (min (yesterdays_soil_value sw day treatment - (dlookup evaporation day).getD 0 +
        ((dlookup precipitation day).getD 0 + row.1)) soilVolume) 0)

/-- Steady-state body for a day without irrigation (climate_data.py lines
233-240). -/
def steady_no_irrigation (precipitation evaporation : List (ℤ × ℚ)) (soilVolume : ℚ)
    (day : ℤ) (sw : SoilWater) : SoilWater :=
  let evaporationLoss := (dlookup evaporation day).getD 0
  let waterGain := (dlookup precipitation day).getD 0
  let sw1 := swSet sw day Treatment.control
    (max (min (yesterdays_soil_value sw day Treatment.control - evaporationLoss + waterGain)
      soilVolume) 0)
  swSet sw1 day Treatment.stress
    (max (min (yesterdays_soil_value sw1 day Treatment.stress - evaporationLoss + waterGain)
      soilVolume) 0)

/-- One iteration of the `for day in trial_dates` loop of `get_soil_water`
(climate_data.py lines 204-240). -/
def soil_water_step (precipitation evaporation : List (ℤ × ℚ))
    (irrigation : List (ℤ × List (ℚ × ℤ))) (soilVolume : ℚ) (initialDays : List ℤ)
    (sw : SoilWater) (day : ℤ) : Option SoilWater :=
  if day ∈ initialDays then
    match dlookup irrigation day with
    | some rows => List.foldlM (fill_irrigation_row precipitation soilVolume day) sw rows
    | none => some (fill_no_irrigation precipitation soilVolume day sw)
  else
    match dlookup irrigation day with
    | some rows =>
      List.foldlM (steady_irrigation_row precipitation evaporation soilVolume day) sw rows
    | none => some (steady_no_irrigation precipitation evaporation soilVolume day sw)

/-- climate_data.py `get_soil_water` (lines 168-241): folds the daily balance
over the trial dates, with the first 14 dates (`trial_dates[:14]`) forming the
fill phase.  `availMoistCap` is accepted and unused, as in the source.  A
`ValueError` from `treatment_type` is modelled as `none`. -/
def get_soil_water (trial_dates : List ℤ) (precipitation evaporation : List (ℤ × ℚ))
    (soilVolume availMoistCap : ℚ) (irrigation : List (ℤ × List (ℚ × ℤ))) :
    Option SoilWater :=
  List.foldlM
    (soil_water_step precipitation evaporation irrigation soilVolume (trial_dates.take 14))
    [] trial_dates

/-- Shelter fill-phase body for one irrigation row (climate_data.py lines
287-296): the stress treatment's gain is the irrigation amount alone. -/
def shelter_fill_irrigation_row (precipitation : List (ℤ × ℚ)) (soilVolume : ℚ) (day : ℤ)
    (sw : SoilWater) (row : ℚ × ℤ) : Option SoilWater :=
  (treatment_type row.2).map fun treatment =>
    let waterGain :=
      match treatment with
      | Treatment.control => (dlookup precipitation day).getD 0 + row.1
      | Treatment.stress => row.1
    swSet sw day treatment
      (min soilVolume (waterGain + yesterdays_soil_value sw day treatment))

/-- Shelter fill-phase body without irrigation (climate_data.py lines
297-305): control gains precipitation, stress gains `0.0`. -/
def shelter_fill_no_irrigation (precipitation : List (ℤ × ℚ)) (soilVolume : ℚ) (day : ℤ)
    (sw : SoilWater) : SoilWater :=
  let sw1 := swSet sw day Treatment.control
    (min soilVolume ((dlookup precipitation day).getD 0 +
      yesterdays_soil_value sw day Treatment.control))
  swSet sw1 day Treatment.stress
    (min soilVolume (0 + yesterdays_soil_value sw1 day Treatment.stress))

/-- Shelter steady-state body for one irrigation row (climate_data.py lines
311-322): on the first post-fill date the previous-day value is read from the
control series. -/
def shelter_steady_irrigation_row (precipitation evaporation : List (ℤ × ℚ))
    (soilVolume : ℚ) (firstAfter : Option ℤ) (day : ℤ) (sw : SoilWater) (row : ℚ × ℤ) :
    Option SoilWater :=
  (treatment_type row.2).map fun treatment =>
    let yesterdaysValue :=
      if firstAfter = some day then yesterdays_soil_value sw day Treatment.control
      else yesterdays_soil_value sw day treatment
    swSet sw day treatment
      (max (min (yesterdaysValue - (dlookup evaporation day).getD 0 +
        ((dlookup precipitation day).getD 0 + row.1)) soilVolume) 0)

/-- Shelter steady-state body without irrigation (climate_data.py lines
323-333). -/
def shelter_steady_no_irrigation (precipitation evaporation : List (ℤ × ℚ))
    (soilVolume : ℚ) (firstAfter : Option ℤ) (day : ℤ) (sw : SoilWater) : SoilWater :=
  let evaporationLoss := (dlookup evaporation day).getD 0
  let waterGain := (dlookup precipitation day).getD 0
  let y1 :=
    if firstAfter = some day then yesterdays_soil_value sw day Treatment.control
    else yesterdays_soil_value sw day Treatment.control
  let sw1 := swSet sw day Treatment.control (max (min (y1 - evaporationLoss + waterGain)
    soilVolume) 0)
  let y2 :=
    if firstAfter = some day then yesterdays_soil_value sw1 day Treatment.control
    else yesterdays_soil_value sw1 day Treatment.stress
  swSet sw1 day Treatment.stress (max (min (y2 - evaporationLoss + waterGain) soilVolume) 0)

/-- One iteration of the `for day in trial_dates` loop of
`get_shelter_soil_water` (climate_data.py lines 284-333). -/
def shelter_step (precipitation evaporation : List (ℤ × ℚ))
    (irrigation : List (ℤ × List (ℚ × ℤ))) (soilVolume : ℚ) (initialDays : List ℤ)
    (firstAfter : Option ℤ) (sw : SoilWater) (day : ℤ) : Option SoilWater :=
  if day ∈ initialDays then
    match dlookup irrigation day with
    | some rows =>
      List.foldlM (shelter_fill_irrigation_row precipitation soilVolume day) sw rows
    | none => some (shelter_fill_no_irrigation precipitation soilVolume day sw)
  else
    match dlookup irrigation day with
    | some rows =>
      List.foldlM
        (shelter_steady_irrigation_row precipitation evaporation soilVolume firstAfter day)
        sw rows
    | none =>
      some (shelter_steady_no_irrigation precipitation evaporation soilVolume firstAfter day sw)

/-- climate_data.py `get_shelter_soil_water` (lines 244-334): the rain-shelter
variant of the balance; `trial_dates[14]` (the first post-fill date, in scope
only when the steady branch is reachable) is threaded through as `firstAfter`. -/
def get_shelter_soil_water (trial_dates : List ℤ) (precipitation evaporation : List (ℤ × ℚ))
    (soilVolume availMoistCap : ℚ) (irrigation : List (ℤ × List (ℚ × ℤ))) :
    Option SoilWater :=
  List.foldlM
    (shelter_step precipitation evaporation irrigation soilVolume (trial_dates.take 14)
      trial_dates[14]?)
    [] trial_dates

/-- Result shape of `get_drought_stress_days`: a single (before, after) pair
when the trial is treated as unirrigated, otherwise a (control, stress) pair
of such pairs. -/
inductive DroughtResult : Type
  | single : ℕ × ℕ → DroughtResult
  | perTreatment : (ℕ × ℕ) → (ℕ × ℕ) → DroughtResult
  deriving DecidableEq, Repr

/-- Inner `stress_days` of `get_drought_stress_days` (climate_data.py lines
445-473): counts days with soil water strictly below the threshold, split at
the flowering date. -/
def stress_days (soil_values : List (ℤ × ℚ)) (flowering_date : ℤ)
    (stress_threshold : ℚ) : ℕ × ℕ :=
  soil_values.foldl
    (fun acc e =>
      if e.2 < stress_threshold then
        if e.1 < flowering_date then (acc.1 + 1, acc.2) else (acc.1, acc.2 + 1)
      else acc)
    (0, 0)

/-- Python `{date: soil_water[date]['control'] for date in soil_water}`
(climate_data.py line 493/499): the inner defaultdict yields `0.0` for a
missing treatment. -/
def control_series (soil_water : SoilWater) : List (ℤ × ℚ) :=
  soil_water.map fun e => (e.1, (dlookup e.2 Treatment.control).getD 0)

/-- Python `{date: soil_water[date]['stress'] for date in soil_water}`
(climate_data.py line 494). -/
def stress_series (soil_water : SoilWater) : List (ℤ × ℚ) :=
  soil_water.map fun e => (e.1, (dlookup e.2 Treatment.stress).getD 0)

/-- climate_data.py `get_drought_stress_days` (lines 402-500).  The call
`evaporation = get_evaporation(climate_data)` at line 475 is factored out into
the `evaporation` parameter (keeping the drought logic exactly computable);
the `assert evaporation` at line 476 is modelled by returning `none` on an
empty map.  Culture ids 56875/62327 route through the shelter balance (lines
481-487); a trial with irrigation rows is reported per treatment unless its
culture id is 47109/56879 (lines 492-500). -/
def get_drought_stress_days (culture_id : ℤ) (trial_dates : List ℤ)
    (evaporation : List (ℤ × ℚ)) (soilVolume availMoistCap : ℚ)
    (precipitation : List (ℤ × ℚ)) (irrigation : List (ℤ × List (ℚ × ℤ)))
    (stress_threshold : ℚ) (flowering_date : ℤ) : Option DroughtResult :=
  if evaporation.isEmpty then none
  else
    (if culture_id = 56875 ∨ culture_id = 62327 then
      get_shelter_soil_water trial_dates precipitation evaporation soilVolume availMoistCap
        irrigation
    else
      get_soil_water trial_dates precipitation evaporation soilVolume availMoistCap
        irrigation).map
      fun soil_water =>
        if ¬irrigation.isEmpty ∧ ¬(culture_id = 47109 ∨ culture_id = 56879) then
          DroughtResult.perTreatment
            (stress_days (control_series soil_water) flowering_date stress_threshold)
            (stress_days (stress_series soil_water) flowering_date stress_threshold)
        else
          DroughtResult.single
            (stress_days (control_series soil_water) flowering_date stress_threshold)

/-- climate_data.py lines 620-624: the irrigation defaultdict is built by
appending one `(irri_amount, treatment_id)` pair per feed row. -/
def build_irrigation (rows : List (ℤ × ℚ × ℤ)) : List (ℤ × List (ℚ × ℤ)) :=
  rows.foldl (fun m r => dictAppend m r.1 r.2) []

/-- climate_data.py line 642: `has_irrigation = True if irrigation else False`. -/
def has_irrigation (irrigation : List (ℤ × List (ℚ × ℤ))) : Bool :=
  !irrigation.isEmpty

/-- Arithmetic mean `sum(numbers) / float(len(numbers))` (climate_data.py
lines 561-562; also the bucket averages of `get_light_intensity`). -/
def mean {α : Type} [DivisionRing α] (numbers : List α) : α :=
  numbers.sum / (numbers.length : α)

/-- Python truthiness of an optional float (`if temperature and humidity:`,
`if windspeed:`, `if temp:`): `None` and `0.0` are both falsy. -/
def truthy : Option ℚ → Bool
  | none => false
  | some x => decide (x ≠ 0)

/-- The `dailyLight` dict of `get_light_intensity` (climate_data.py lines
124-127): every date occurring in the data is seeded with an empty list, then
each strictly positive reading is appended to its date. -/
def dailyLight (light_data : List (ℤ × ℚ)) : List (ℤ × List ℚ) :=
  light_data.foldl
    (fun m r => if 0 < r.2 then dictAppend m r.1 r.2 else m)
    ((light_data.map Prod.fst).dedup.map fun d => (d, ([] : List ℚ)))

/-- climate_data.py `get_light_intensity` (lines 104-136): per-day score
`sum * len` of the day's positive readings, averaged over each flowering
bucket; an empty bucket raises `ZeroDivisionError`, modelled as `none`. -/
def get_light_intensity (light_data : List (ℤ × ℚ)) (flowering_date : ℤ) :
    Option (ℚ × ℚ) :=
  let dl := dailyLight light_data
  let L1 := (dl.filter fun e => e.1 < flowering_date).map
    fun e => e.2.sum * (e.2.length : ℚ)
  let L2 := (dl.filter fun e => ¬e.1 < flowering_date).map
    fun e => e.2.sum * (e.2.length : ℚ)
  if L1.length = 0 ∨ L2.length = 0 then none
  else some (L1.sum / (L1.length : ℚ), L2.sum / (L2.length : ℚ))

/-- The positive readings of one date, in data order: the final contents of
`dailyLight[d]`. -/
def positive_readings (light_data : List (ℤ × ℚ)) (d : ℤ) : List ℚ :=
  (light_data.filter fun r => r.1 = d ∧ 0 < r.2).map Prod.snd

/-- The per-day light score `sum(dailyLight[day]) * len(dailyLight[day])`. -/
def day_score (light_data : List (ℤ × ℚ)) (d : ℤ) : ℚ :=
  (positive_readings light_data d).sum * ((positive_readings light_data d).length : ℚ)

/-- Modelled from the spec (claim side, for comparison only): the mean of the
per-day scores over exactly those bucket dates that have at least one
strictly positive radiation reading. -/
def light_intensity_claim (light_data : List (ℤ × ℚ)) (flowering_date : ℤ) : ℚ × ℚ :=
  let qual1 := (light_data.map Prod.fst).dedup.filter
    fun d => d < flowering_date ∧ positive_readings light_data d ≠ []
  let qual2 := (light_data.map Prod.fst).dedup.filter
    fun d => ¬d < flowering_date ∧ positive_readings light_data d ≠ []
  (mean (qual1.map (day_score light_data)), mean (qual2.map (day_score light_data)))

/-- One hourly climate reading `(datetime, temperature, windspeed,
relHumidity)` (climate_data.py lines 346-351), with the timestamp collapsed
to its date ordinal — the source only ever uses `row[0].date()`. -/
structure ClimateRow : Type where
  day : ℤ
  temperature : Option ℚ
  windspeed : Option ℚ
  humidity : Option ℚ
  deriving DecidableEq, Repr

/-- The `dailyMinMaxTemp` dict of `get_temp_stress_days` (climate_data.py
lines 370-380): every occurring date starts at the `(1000, -1000)` sentinels;
each truthy temperature (Python `if temp:`, so `None` and `0.0` are skipped)
lowers the min and raises the max of its date. -/
def dailyMinMaxTemp (climate_data : List ClimateRow) : List (ℤ × ℚ × ℚ) :=
  climate_data.foldl
    (fun m r =>
      if truthy r.temperature then
        match dlookup m r.day with
        | some p => dictInsert m r.day (min (r.temperature.getD 0) p.1,
            max (r.temperature.getD 0) p.2)
        | none => m
      else m)
    ((climate_data.map ClimateRow.day).dedup.map fun d => (d, ((1000 : ℚ), (-1000 : ℚ))))

/-- climate_data.py `get_temp_stress_days` (lines 337-399): per day, a
`tMin` below `tlb` contributes `|tlb - tMin|` to the cold bucket and a
`tMax` above `tub` contributes `|tMax - tub|` to the heat bucket, bucketed
by the day against the flowering date; returns (cold before, cold after,
heat before, heat after). -/
def get_temp_stress_days (climate_data : List ClimateRow) (tub tlb : ℚ)
    (flowering_date : ℤ) : ℚ × ℚ × ℚ × ℚ :=
  let dmm := dailyMinMaxTemp climate_data
  let cold_before := (dmm.filter fun e => e.1 < flowering_date ∧ e.2.1 < tlb).map
    fun e => |tlb - e.2.1|
  let cold_after := (dmm.filter fun e => ¬e.1 < flowering_date ∧ e.2.1 < tlb).map
    fun e => |tlb - e.2.1|
  let heat_before := (dmm.filter fun e => e.1 < flowering_date ∧ tub < e.2.2).map
    fun e => |e.2.2 - tub|
  let heat_after := (dmm.filter fun e => ¬e.1 < flowering_date ∧ tub < e.2.2).map
    fun e => |e.2.2 - tub|
  (cold_before.sum, cold_after.sum, heat_before.sum, heat_after.sum)

/-- vpd_heatsum.py `calc_VPD` (lines 92-129) saturation vapour pressure:
`0.61365 * exp(17.502*T / (240.97+T))`. -/
noncomputable def vp_sat (t_celsius : ℝ) : ℝ :=
  0.61365 * Real.exp ((17.502 * t_celsius) / (240.97 + t_celsius))

/-- vpd_heatsum.py `calc_VPD`: `vp_sat - vp_sat * rel_humidity` with relative
humidity as a fraction. -/
noncomputable def calc_VPD (t_celsius rel_humidity : ℝ) : ℝ :=
  vp_sat t_celsius - vp_sat t_celsius * rel_humidity

/-- climate_data.py `penman_evaporation` (lines 524-545):
`0.376 * vpd * (windspeed * 2.23693629205) ** 0.76`. -/
noncomputable def penman_evaporation (vpd windspeed : ℝ) : ℝ :=
  0.376 * vpd * Real.rpow (windspeed * 2.23693629205) 0.76

/-- The `daily_vpd` defaultdict of `get_evaporation` (climate_data.py lines
550-557): for each hour whose temperature and humidity are both truthy
(Python `if temperature and humidity:`), `calc_VPD(temperature,
humidity/100.0)` is appended to the hour's date. -/
noncomputable def daily_vpd (climate_data : List ClimateRow) : List (ℤ × List ℝ) :=
  climate_data.foldl
    (fun m r =>
      if truthy r.temperature && truthy r.humidity then
        dictAppend m r.day
          (calc_VPD ((r.temperature.getD 0 : ℚ) : ℝ) (((r.humidity.getD 0 : ℚ) : ℝ) / 100))
      else m)
    []

/-- The `daily_windspeed` defaultdict of `get_evaporation` (climate_data.py
lines 551-559): each truthy windspeed is appended to its date. -/
def daily_windspeed (climate_data : List ClimateRow) : List (ℤ × List ℝ) :=
  climate_data.foldl
    (fun m r =>
      if truthy r.windspeed then dictAppend m r.day ((r.windspeed.getD 0 : ℚ) : ℝ) else m)
    []

/-- climate_data.py `get_evaporation` (lines 503-574): for each date occurring
in the data for which both a VPD list and a windspeed list were collected,
the Penman evaporation of the two daily means; other dates are absent
(`none`), not errors. -/
noncomputable def get_evaporation (climate_data : List ClimateRow) : ℤ → Option ℝ :=
  fun day =>
    if day ∈ climate_data.map ClimateRow.day then
      match dlookup (daily_vpd climate_data) day, dlookup (daily_windspeed climate_data) day with
      | some vpds, some winds => some (penman_evaporation (mean vpds) (mean winds))
      | _, _ => none
    else none

/-- The VPD values attributed to a date: one per hour whose temperature and
humidity both satisfy `p`, in data order. -/
noncomputable def vpd_values (p : Option ℚ → Bool) (climate_data : List ClimateRow) (d : ℤ) :
    List ℝ :=
  (climate_data.filter fun r => decide (r.day = d) && (p r.temperature && p r.humidity)).map
    fun r => calc_VPD ((r.temperature.getD 0 : ℚ) : ℝ) (((r.humidity.getD 0 : ℚ) : ℝ) / 100)

/-- The windspeed values attributed to a date: one per hour whose windspeed
satisfies `p`, in data order. -/
def windspeed_values (p : Option ℚ → Bool) (climate_data : List ClimateRow) (d : ℤ) :
    List ℝ :=
  (climate_data.filter fun r => decide (r.day = d) && p r.windspeed).map
    fun r => ((r.windspeed.getD 0 : ℚ) : ℝ)

/-- Modelled from the spec (claim side, for comparison only): the claimed
evaporation value of a date, with both means taken over the hours whose
readings are merely present (`Option.isSome`), and the VPD written as
`vp_sat * (1 - humidity/100)` as in the claim. -/
noncomputable def evaporation_claim_value (climate_data : List ClimateRow) (d : ℤ) : ℝ :=
  0.376 *
    mean ((climate_data.filter fun r =>
        decide (r.day = d) && (r.temperature.isSome && r.humidity.isSome)).map
      fun r => vp_sat ((r.temperature.getD 0 : ℚ) : ℝ) *
        (1 - ((r.humidity.getD 0 : ℚ) : ℝ) / 100)) *
    Real.rpow (mean (windspeed_values (fun w => w.isSome) climate_data d) * 2.23693629205) 0.76

/-! ### Association-list lemmas -/

theorem dlookup_dictInsert_self {κ α : Type} [DecidableEq κ] (m : List (κ × α)) (k : κ)
    (v : α) : dlookup (dictInsert m k v) k = some v := by
  induction m with
  | nil => simp [dictInsert, dlookup]
  | cons head rest ih =>
    obtain ⟨k', v'⟩ := head
    by_cases h : k = k'
    · simp [dictInsert, h, dlookup]
    · simp only [dictInsert, if_neg h, dlookup]
      exact ih

theorem dlookup_dictInsert_ne {κ α : Type} [DecidableEq κ] (m : List (κ × α)) (k x : κ)
    (v : α) (hx : x ≠ k) : dlookup (dictInsert m k v) x = dlookup m x := by
  induction m with
  | nil => simp [dictInsert, dlookup, hx]
  | cons head rest ih =>
    obtain ⟨k', v'⟩ := head
    by_cases h : k = k'
    · subst h
      simp [dictInsert, dlookup, hx]
    · simp only [dictInsert, if_neg h, dlookup]
      by_cases hx' : x = k'
      · simp [hx']
      · rw [if_neg hx', if_neg hx']
        exact ih

theorem dlookup_dictAppend_self {κ α : Type} [DecidableEq κ] (m : List (κ × List α))
    (k : κ) (v : α) :
    dlookup (dictAppend m k v) k = some ((dlookup m k).getD [] ++ [v]) := by
  induction m with
  | nil => simp [dictAppend, dlookup]
  | cons head rest ih =>
    obtain ⟨k', l⟩ := head
    by_cases h : k = k'
    · subst h
      simp [dictAppend, dlookup]
    · simp only [dictAppend, if_neg h, dlookup]
      exact ih

theorem dlookup_dictAppend_ne {κ α : Type} [DecidableEq κ] (m : List (κ × List α))
    (k x : κ) (v : α) (hx : x ≠ k) : dlookup (dictAppend m k v) x = dlookup m x := by
  induction m with
  | nil => simp [dictAppend, dlookup, hx]
  | cons head rest ih =>
    obtain ⟨k', l⟩ := head
    by_cases h : k = k'
    · subst h
      simp [dictAppend, dlookup, hx]
    · simp only [dictAppend, if_neg h, dlookup]
      by_cases hx' : x = k'
      · simp [hx']
      · rw [if_neg hx', if_neg hx']
        exact ih

theorem dictAppend_ne_nil {κ α : Type} [DecidableEq κ] (m : List (κ × List α)) (k : κ)
    (v : α) : dictAppend m k v ≠ [] := by
  cases m with
  | nil => simp [dictAppend]
  | cons head rest =>
    obtain ⟨k', l⟩ := head
    by_cases h : k = k' <;> simp [dictAppend, h]

/-- A successful lookup comes from an entry of the list. -/
theorem dlookup_mem {κ α : Type} [DecidableEq κ] (m : List (κ × α)) (k : κ) (v : α)
    (h : dlookup m k = some v) : (k, v) ∈ m := by
  induction m with
  | nil => simp [dlookup] at h
  | cons head rest ih =>
    obtain ⟨k', v'⟩ := head
    by_cases hk : k = k'
    · subst hk
      simp [dlookup] at h
      simp [h]
    · simp only [dlookup, if_neg hk] at h
      exact List.mem_cons_of_mem _ (ih h)

/-! ### `daterange` lemmas -/

theorem mem_daterange (start : ℤ) (n : ℕ) (x : ℤ) :
    x ∈ daterange start n ↔ start ≤ x ∧ x < start + n := by
  induction n generalizing start with
  | zero => simp [daterange]
  | succ k ih =>
    simp only [daterange, List.mem_cons, ih]
    omega

theorem daterange_append (start : ℤ) (i k : ℕ) :
    daterange start (i + k) = daterange start i ++ daterange (start + i) k := by
  induction i generalizing start with
  | zero => simp [daterange]
  | succ j ih =>
    have : j + 1 + k = (j + k) + 1 := by omega
    rw [this]
    simp only [daterange, List.cons_append, ih (start + 1)]
    have : start + 1 + (j : ℤ) = start + (j + 1 : ℕ) := by push_cast; ring
    rw [this]

theorem take_daterange (start : ℤ) (n k : ℕ) :
    (daterange start n).take k = daterange start (min k n) := by
  induction n generalizing start k with
  | zero => simp [daterange]
  | succ j ih =>
    cases k with
    | zero => simp [daterange]
    | succ k' =>
      have hmin : min (k' + 1) (j + 1) = (min k' j) + 1 := by omega
      rw [hmin]
      simp only [daterange, List.take_succ_cons, ih (start + 1) k']

theorem getElem?_daterange (start : ℤ) (n k : ℕ) (hk : k < n) :
    (daterange start n)[k]? = some (start + k) := by
  induction n generalizing start k with
  | zero => omega
  | succ j ih =>
    cases k with
    | zero => simp [daterange]
    | succ k' =>
      simp only [daterange, List.getElem?_cons_succ]
      rw [ih (start + 1) k' (by omega)]
      congr 1
      push_cast
      ring

/-! ### Generic fold lemmas over `Option` -/

theorem foldlM_option_induction {σ ι : Type} (step : σ → ι → Option σ) (P : σ → Prop)
    (l : List ι) :
    ∀ s s', (∀ s₀ a s₁, a ∈ l → step s₀ a = some s₁ → P s₀ → P s₁) →
      List.foldlM step s l = some s' → P s → P s' := by
  induction l with
  | nil =>
    intro s s' _ h hP
    simp only [List.foldlM_nil, Option.pure_def, Option.some.injEq] at h
    exact h ▸ hP
  | cons a l ih =>
    intro s s' hstep h hP
    simp only [List.foldlM_cons] at h
    cases hsa : step s a with
    | none => rw [hsa] at h; simp at h
    | some s₁ =>
      rw [hsa] at h
      simp only [Option.bind_eq_bind, Option.some_bind] at h
      exact ih s₁ s' (fun s₀ b s₂ hb => hstep s₀ b s₂ (List.mem_cons_of_mem _ hb)) h
        (hstep s a s₁ (List.mem_cons_self _ _) hsa hP)

theorem foldlM_option_frame {σ ι β : Type} (step : σ → ι → Option σ) (f : σ → β)
    (l : List ι) :
    ∀ s s', (∀ s₀ a s₁, a ∈ l → step s₀ a = some s₁ → f s₁ = f s₀) →
      List.foldlM step s l = some s' → f s' = f s := by
  intro s s' hstep h
  exact foldlM_option_induction step (fun s₁ => f s₁ = f s) l s s'
    (fun s₀ a s₁ ha hs hP => (hstep s₀ a s₁ ha hs).trans hP) h rfl

theorem foldlM_option_append {σ ι : Type} (step : σ → ι → Option σ) (l₁ l₂ : List ι)
    (s : σ) :
    List.foldlM step s (l₁ ++ l₂) =
      (List.foldlM step s l₁).bind fun s' => List.foldlM step s' l₂ := by
  induction l₁ generalizing s with
  | nil => simp
  | cons a l ih =>
    simp only [List.cons_append, List.foldlM_cons, Option.bind_eq_bind]
    cases step s a with
    | none => simp
    | some s₁ => simp only [Option.some_bind]; exact ih s₁

/-! ### Frame lemmas: each daily body writes only at its own date -/

theorem dlookup_swSet_ne (sw : SoilWater) (day : ℤ) (t : Treatment) (v : ℚ) (x : ℤ)
    (hx : x ≠ day) : dlookup (swSet sw day t v) x = dlookup sw x :=
  dlookup_dictInsert_ne _ _ _ _ hx

theorem dlookup_swSet_self (sw : SoilWater) (day : ℤ) (t : Treatment) (v : ℚ) :
    dlookup (swSet sw day t v) day =
      some (dictInsert ((dlookup sw day).getD []) t v) :=
  dlookup_dictInsert_self _ _ _

theorem yesterdays_congr (sw₁ sw₂ : SoilWater) (day : ℤ)
    (h : dlookup sw₁ (day - 1) = dlookup sw₂ (day - 1)) (t : Treatment) :
    yesterdays_soil_value sw₁ day t = yesterdays_soil_value sw₂ day t := by
  unfold yesterdays_soil_value
  rw [h]

theorem fill_irrigation_row_frame (precipitation : List (ℤ × ℚ)) (soilVolume : ℚ)
    (day : ℤ) (sw sw' : SoilWater) (row : ℚ × ℤ)
    (h : fill_irrigation_row precipitation soilVolume day sw row = some sw') (x : ℤ)
    (hx : x ≠ day) : dlookup sw' x = dlookup sw x := by
  unfold fill_irrigation_row at h
  cases ht : treatment_type row.2 with
  | none => rw [ht] at h; simp at h
  | some t =>
    rw [ht] at h
    simp only [Option.map_some', Option.some.injEq] at h
    rw [← h]
    exact dlookup_swSet_ne _ _ _ _ _ hx

theorem steady_irrigation_row_frame (precipitation evaporation : List (ℤ × ℚ))
    (soilVolume : ℚ) (day : ℤ) (sw sw' : SoilWater) (row : ℚ × ℤ)
    (h : steady_irrigation_row precipitation evaporation soilVolume day sw row = some sw')
    (x : ℤ) (hx : x ≠ day) : dlookup sw' x = dlookup sw x := by
  unfold steady_irrigation_row at h
  cases ht : treatment_type row.2 with
  | none => rw [ht] at h; simp at h
  | some t =>
    rw [ht] at h
    simp only [Option.map_some', Option.some.injEq] at h
    rw [← h]
    exact dlookup_swSet_ne _ _ _ _ _ hx

theorem shelter_fill_irrigation_row_frame (precipitation : List (ℤ × ℚ))
    (soilVolume : ℚ) (day : ℤ) (sw sw' : SoilWater) (row : ℚ × ℤ)
    (h : shelter_fill_irrigation_row precipitation soilVolume day sw row = some sw')
    (x : ℤ) (hx : x ≠ day) : dlookup sw' x = dlookup sw x := by
  unfold shelter_fill_irrigation_row at h
  cases ht : treatment_type row.2 with
  | none => rw [ht] at h; simp at h
  | some t =>
    rw [ht] at h
    simp only [Option.map_some', Option.some.injEq] at h
    rw [← h]
    exact dlookup_swSet_ne _ _ _ _ _ hx

theorem shelter_steady_irrigation_row_frame (precipitation evaporation : List (ℤ × ℚ))
    (soilVolume : ℚ) (firstAfter : Option ℤ) (day : ℤ) (sw sw' : SoilWater) (row : ℚ × ℤ)
    (h : shelter_steady_irrigation_row precipitation evaporation soilVolume firstAfter day
      sw row = some sw')
    (x : ℤ) (hx : x ≠ day) : dlookup sw' x = dlookup sw x := by
  unfold shelter_steady_irrigation_row at h
  cases ht : treatment_type row.2 with
  | none => rw [ht] at h; simp at h
  | some t =>
    rw [ht] at h
    simp only [Option.map_some', Option.some.injEq] at h
    rw [← h]
    exact dlookup_swSet_ne _ _ _ _ _ hx

theorem soil_water_step_frame (precipitation evaporation : List (ℤ × ℚ))
    (irrigation : List (ℤ × List (ℚ × ℤ))) (soilVolume : ℚ) (initialDays : List ℤ)
    (sw sw' : SoilWater) (day : ℤ)
    (h : soil_water_step precipitation evaporation irrigation soilVolume initialDays sw day
      = some sw')
    (x : ℤ) (hx : x ≠ day) : dlookup sw' x = dlookup sw x := by
  unfold soil_water_step at h
  by_cases hini : day ∈ initialDays
  · rw [if_pos hini] at h
    cases hirr : dlookup irrigation day with
    | some rows =>
      rw [hirr] at h
      exact foldlM_option_frame _ (fun s => dlookup s x) rows sw sw'
        (fun s₀ a s₁ _ hs => fill_irrigation_row_frame _ _ _ _ _ _ hs x hx) h
    | none =>
      rw [hirr] at h
      simp only [Option.some.injEq] at h
      rw [← h]
      unfold fill_no_irrigation
      rw [dlookup_swSet_ne _ _ _ _ _ hx, dlookup_swSet_ne _ _ _ _ _ hx]
  · rw [if_neg hini] at h
    cases hirr : dlookup irrigation day with
    | some rows =>
      rw [hirr] at h
      exact foldlM_option_frame _ (fun s => dlookup s x) rows sw sw'
        (fun s₀ a s₁ _ hs => steady_irrigation_row_frame _ _ _ _ _ _ _ hs x hx) h
    | none =>
      rw [hirr] at h
      simp only [Option.some.injEq] at h
      rw [← h]
      unfold steady_no_irrigation
      rw [dlookup_swSet_ne _ _ _ _ _ hx, dlookup_swSet_ne _ _ _ _ _ hx]

theorem shelter_step_frame (precipitation evaporation : List (ℤ × ℚ))
    (irrigation : List (ℤ × List (ℚ × ℤ))) (soilVolume : ℚ) (initialDays : List ℤ)
    (firstAfter : Option ℤ) (sw sw' : SoilWater) (day : ℤ)
    (h : shelter_step precipitation evaporation irrigation soilVolume initialDays firstAfter
      sw day = some sw')
    (x : ℤ) (hx : x ≠ day) : dlookup sw' x = dlookup sw x := by
  unfold shelter_step at h
  by_cases hini : day ∈ initialDays
  · rw [if_pos hini] at h
    cases hirr : dlookup irrigation day with
    | some rows =>
      rw [hirr] at h
      exact foldlM_option_frame _ (fun s => dlookup s x) rows sw sw'
        (fun s₀ a s₁ _ hs => shelter_fill_irrigation_row_frame _ _ _ _ _ _ hs x hx) h
    | none =>
      rw [hirr] at h
      simp only [Option.some.injEq] at h
      rw [← h]
      unfold shelter_fill_no_irrigation
      rw [dlookup_swSet_ne _ _ _ _ _ hx, dlookup_swSet_ne _ _ _ _ _ hx]
  · rw [if_neg hini] at h
    cases hirr : dlookup irrigation day with
    | some rows =>
      rw [hirr] at h
      exact foldlM_option_frame _ (fun s => dlookup s x) rows sw sw'
        (fun s₀ a s₁ _ hs => shelter_steady_irrigation_row_frame _ _ _ _ _ _ _ _ hs x hx) h
    | none =>
      rw [hirr] at h
      simp only [Option.some.injEq] at h
      rw [← h]
      unfold shelter_steady_no_irrigation
      rw [dlookup_swSet_ne _ _ _ _ _ hx, dlookup_swSet_ne _ _ _ _ _ hx]

/-! ### Characterising the defaultdict-building folds -/

theorem dictAppend_eq_map {κ α : Type} [DecidableEq κ] (m : List (κ × List α)) (k : κ)
    (v : α) (hk : k ∈ m.map Prod.fst) (hnd : (m.map Prod.fst).Nodup) :
    dictAppend m k v = m.map fun e => (e.1, e.2 ++ if e.1 = k then [v] else []) := by
  induction m with
  | nil => simp at hk
  | cons head rest ih =>
    obtain ⟨k', l⟩ := head
    simp only [List.map_cons, List.nodup_cons] at hnd
    by_cases h : k = k'
    · subst h
      have hrest : rest.map (fun e => (e.1, e.2 ++ if e.1 = k then [v] else [])) = rest := by
        have hmc : ∀ e ∈ rest, (fun e => (e.1, e.2 ++ if e.1 = k then [v] else [])) e = id e := by
          intro e he
          have hek : ¬e.1 = k := fun hek => hnd.1 (hek ▸ List.mem_map_of_mem Prod.fst he)
          simp [hek]
        rw [List.map_congr_left hmc, List.map_id]
      simp only [dictAppend, List.map_cons]
      simp [hrest]
    · have hk' : k ∈ rest.map Prod.fst := by
        simp only [List.map_cons, List.mem_cons] at hk
        rcases hk with hk | hk
        · exact absurd hk h
        · exact hk
      simp only [dictAppend, if_neg h, List.map_cons]
      rw [ih hk' hnd.2]
      have h2 : ¬(k' = k) := fun hh => h hh.symm
      simp [h2]

theorem foldl_dictAppend_eq_map {β α : Type} (key : β → ℤ) (p : β → Bool) (val : β → α) :
    ∀ (rows : List β) (m : List (ℤ × List α)), (m.map Prod.fst).Nodup →
      (∀ r ∈ rows, p r = true → key r ∈ m.map Prod.fst) →
      rows.foldl (fun m r => if p r then dictAppend m (key r) (val r) else m) m =
        m.map fun e =>
          (e.1, e.2 ++ (rows.filter fun r => decide (key r = e.1) && p r).map val) := by
  intro rows
  induction rows with
  | nil =>
    intro m _ _
    simp only [List.foldl_nil, List.filter_nil, List.map_nil, List.append_nil]
    exact (List.map_id m).symm
  | cons r rs ih =>
    intro m hnd hmem
    by_cases hp : p r = true
    · simp only [List.foldl_cons, if_pos hp]
      rw [dictAppend_eq_map m (key r) (val r) (hmem r (List.mem_cons_self _ _) hp) hnd]
      rw [ih _ (by simpa [List.map_map, Function.comp] using hnd)
        (fun r' hr' hp' => by
          simpa [List.map_map, Function.comp] using
            hmem r' (List.mem_cons_of_mem _ hr') hp')]
      rw [List.map_map]
      apply List.map_congr_left
      intro e _
      simp only [Function.comp]
      rw [List.filter_cons]
      by_cases hkey : key r = e.1
      · simp [hkey, hp, List.append_assoc]
      · have h2 : ¬(e.1 = key r) := fun hh => hkey hh.symm
        simp [hkey, h2]
    · simp only [List.foldl_cons, if_neg hp]
      rw [ih m hnd (fun r' hr' hp' => hmem r' (List.mem_cons_of_mem _ hr') hp')]
      apply List.map_congr_left
      intro e _
      rw [List.filter_cons]
      simp [hp]

theorem dlookup_foldl_dictAppend {β α : Type} (key : β → ℤ) (p : β → Bool) (val : β → α) :
    ∀ (rows : List β) (m : List (ℤ × List α)) (d : ℤ),
      (((rows.filter fun r => decide (key r = d) && p r).map val = [] →
        dlookup (rows.foldl (fun m r => if p r then dictAppend m (key r) (val r) else m) m)
          d = dlookup m d) ∧
      ((rows.filter fun r => decide (key r = d) && p r).map val ≠ [] →
        dlookup (rows.foldl (fun m r => if p r then dictAppend m (key r) (val r) else m) m)
          d = some ((dlookup m d).getD [] ++
            (rows.filter fun r => decide (key r = d) && p r).map val))) := by
  intro rows
  induction rows with
  | nil => intro m d; simp
  | cons r rs ih =>
    intro m d
    by_cases hp : p r = true
    · by_cases hkey : key r = d
      · subst hkey
        have hfilter : (r :: rs).filter (fun x => decide (key x = key r) && p x) =
            r :: rs.filter fun x => decide (key x = key r) && p x := by
          rw [List.filter_cons, if_pos (by simp [hp])]
        constructor
        · intro hsel
          rw [hfilter] at hsel
          simp at hsel
        · intro _
          simp only [List.foldl_cons, if_pos hp, hfilter, List.map_cons]
          have happ := dlookup_dictAppend_self m (key r) (val r)
          by_cases hsel : (rs.filter fun x => decide (key x = key r) && p x).map val = []
          · rw [(ih (dictAppend m (key r) (val r)) (key r)).1 hsel, happ, hsel]
          · rw [(ih (dictAppend m (key r) (val r)) (key r)).2 hsel, happ]
            simp [List.append_assoc]
      · have hfilter : (r :: rs).filter (fun r => decide (key r = d) && p r) =
            rs.filter fun r => decide (key r = d) && p r := by
          rw [List.filter_cons, if_neg (by simp [hkey])]
        have hlook : dlookup (dictAppend m (key r) (val r)) d = dlookup m d :=
          dlookup_dictAppend_ne m (key r) d (val r) (fun h => hkey h.symm)
        constructor
        · intro hsel
          rw [hfilter] at hsel
          simp only [List.foldl_cons, if_pos hp]
          rw [(ih (dictAppend m (key r) (val r)) d).1 hsel, hlook]
        · intro hsel
          rw [hfilter] at hsel
          simp only [List.foldl_cons, if_pos hp, hfilter]
          rw [(ih (dictAppend m (key r) (val r)) d).2 hsel, hlook]
    · have hfilter : (r :: rs).filter (fun r => decide (key r = d) && p r) =
          rs.filter fun r => decide (key r = d) && p r := by
        rw [List.filter_cons, if_neg (by simp [hp])]
      constructor
      · intro hsel
        rw [hfilter] at hsel
        simp only [List.foldl_cons, if_neg hp]
        exact (ih m d).1 hsel
      · intro hsel
        rw [hfilter] at hsel
        simp only [List.foldl_cons, if_neg hp, hfilter]
        exact (ih m d).2 hsel

theorem dailyLight_eq (light_data : List (ℤ × ℚ)) :
    dailyLight light_data =
      (light_data.map Prod.fst).dedup.map fun d => (d, positive_readings light_data d) := by
  unfold dailyLight
  have hstep : (fun (m : List (ℤ × List ℚ)) (r : ℤ × ℚ) =>
      if 0 < r.2 then dictAppend m r.1 r.2 else m) =
      (fun m r => if decide (0 < r.2) = true then dictAppend m r.1 r.2 else m) := by
    funext m r
    simp
  rw [hstep]
  have hid : (Prod.fst ∘ fun d : ℤ => (d, ([] : List ℚ))) = id := rfl
  have h := foldl_dictAppend_eq_map (fun r : ℤ × ℚ => r.1) (fun r : ℤ × ℚ => decide (0 < r.2))
    (fun r : ℤ × ℚ => r.2) light_data
    ((light_data.map Prod.fst).dedup.map fun d => (d, ([] : List ℚ)))
    (by rw [List.map_map, hid, List.map_id]; exact List.nodup_dedup _)
    (fun r hr _ => by
      rw [List.map_map, hid, List.map_id]
      exact List.mem_dedup.mpr (List.mem_map_of_mem Prod.fst hr))
  refine h.trans ?_
  rw [List.map_map]
  apply List.map_congr_left
  intro d _
  simp only [Function.comp, List.nil_append]
  have hf : light_data.filter (fun r => decide (r.1 = d) && decide (0 < r.2)) =
      light_data.filter fun r => decide (r.1 = d ∧ 0 < r.2) :=
    List.filter_congr fun x _ => by simp [Bool.decide_and]
  rw [hf]
  rfl

theorem dailyLight_filter_map (light_data : List (ℤ × ℚ)) (q : ℤ → Bool) :
    ((dailyLight light_data).filter fun e => q e.1).map
        (fun e => e.2.sum * (e.2.length : ℚ)) =
      ((light_data.map Prod.fst).dedup.filter q).map (day_score light_data) := by
  rw [dailyLight_eq, List.filter_map, List.map_map]
  have h1 : (light_data.map Prod.fst).dedup.filter
        ((fun e : ℤ × List ℚ => q e.1) ∘ fun d => (d, positive_readings light_data d)) =
      (light_data.map Prod.fst).dedup.filter q :=
    List.filter_congr fun d _ => rfl
  rw [h1]
  apply List.map_congr_left
  intro d _
  rfl

/-! ### Per-day writes of the balance bodies -/

theorem swSet_bind_self (sw : SoilWater) (day : ℤ) (t : Treatment) (v : ℚ) :
    (dlookup (swSet sw day t v) day).bind (fun inner => dlookup inner t) = some v := by
  rw [dlookup_swSet_self]
  simp [dlookup_dictInsert_self]

theorem swSet_bind_ne (sw : SoilWater) (day : ℤ) (t₁ : Treatment) (v : ℚ) (t : Treatment)
    (h : t ≠ t₁) :
    (dlookup (swSet sw day t₁ v) day).bind (fun inner => dlookup inner t) =
      (dlookup sw day).bind (fun inner => dlookup inner t) := by
  rw [dlookup_swSet_self]
  simp only [Option.some_bind]
  rw [dlookup_dictInsert_ne _ _ _ _ h]
  cases hsw : dlookup sw day with
  | none => simp [dlookup]
  | some inner => simp

theorem rows_fold_bind_preserve (day : ℤ) (step : SoilWater → (ℚ × ℤ) → Option SoilWater)
    (hw : ∀ sw r sw', step sw r = some sw' →
      ∃ t v, treatment_type r.2 = some t ∧ sw' = swSet sw day t v) :
    ∀ (rows : List (ℚ × ℤ)) (sw sw' : SoilWater) (t : Treatment),
      List.foldlM step sw rows = some sw' →
      (∀ r ∈ rows, treatment_type r.2 ≠ some t) →
      (dlookup sw' day).bind (fun inner => dlookup inner t) =
        (dlookup sw day).bind (fun inner => dlookup inner t) := by
  intro rows
  induction rows with
  | nil =>
    intro sw sw' t h _
    simp only [List.foldlM_nil, Option.pure_def, Option.some.injEq] at h
    rw [h]
  | cons r rs ih =>
    intro sw sw' t h hne
    simp only [List.foldlM_cons, Option.bind_eq_bind] at h
    cases hr : step sw r with
    | none => rw [hr] at h; simp at h
    | some s₁ =>
      rw [hr] at h
      simp only [Option.some_bind] at h
      obtain ⟨t₁, v, ht₁, hs₁⟩ := hw sw r s₁ hr
      have htne : t ≠ t₁ := by
        intro hh
        exact hne r (List.mem_cons_self _ _) (hh ▸ ht₁)
      rw [ih s₁ sw' t h (fun r' hr' => hne r' (List.mem_cons_of_mem _ hr')), hs₁,
        swSet_bind_ne sw day t₁ v t htne]

theorem rows_fold_bind_isSome_mono (day : ℤ)
    (step : SoilWater → (ℚ × ℤ) → Option SoilWater)
    (hw : ∀ sw r sw', step sw r = some sw' →
      ∃ t v, treatment_type r.2 = some t ∧ sw' = swSet sw day t v) :
    ∀ (rows : List (ℚ × ℤ)) (sw sw' : SoilWater) (t : Treatment),
      List.foldlM step sw rows = some sw' →
      ((dlookup sw day).bind (fun inner => dlookup inner t)).isSome = true →
      ((dlookup sw' day).bind (fun inner => dlookup inner t)).isSome = true := by
  intro rows
  induction rows with
  | nil =>
    intro sw sw' t h hs
    simp only [List.foldlM_nil, Option.pure_def, Option.some.injEq] at h
    rw [← h]
    exact hs
  | cons r rs ih =>
    intro sw sw' t h hs
    simp only [List.foldlM_cons, Option.bind_eq_bind] at h
    cases hr : step sw r with
    | none => rw [hr] at h; simp at h
    | some s₁ =>
      rw [hr] at h
      simp only [Option.some_bind] at h
      obtain ⟨t₁, v, ht₁, hs₁⟩ := hw sw r s₁ hr
      refine ih s₁ sw' t h ?_
      by_cases htt : t = t₁
      · rw [hs₁, htt, swSet_bind_self]
        rfl
      · rw [hs₁, swSet_bind_ne sw day t₁ v t htt]
        exact hs

theorem rows_fold_bind_isSome (day : ℤ) (step : SoilWater → (ℚ × ℤ) → Option SoilWater)
    (hw : ∀ sw r sw', step sw r = some sw' →
      ∃ t v, treatment_type r.2 = some t ∧ sw' = swSet sw day t v) :
    ∀ (rows : List (ℚ × ℤ)) (sw sw' : SoilWater),
      List.foldlM step sw rows = some sw' →
      ∀ r ∈ rows, ∀ t, treatment_type r.2 = some t →
        ((dlookup sw' day).bind (fun inner => dlookup inner t)).isSome = true := by
  intro rows
  induction rows with
  | nil => intro sw sw' h r hr; simp at hr
  | cons r₀ rs ih =>
    intro sw sw' h r hr t ht
    simp only [List.foldlM_cons, Option.bind_eq_bind] at h
    cases hr₀ : step sw r₀ with
    | none => rw [hr₀] at h; simp at h
    | some s₁ =>
      rw [hr₀] at h
      simp only [Option.some_bind] at h
      rcases List.mem_cons.mp hr with hreq | hrs
      · obtain ⟨t₁, v, ht₁, hs₁⟩ := hw sw r₀ s₁ hr₀
        have htt : t = t₁ := by
          rw [hreq] at ht
          rw [ht] at ht₁
          exact (Option.some.injEq _ _).mp ht₁
        refine rows_fold_bind_isSome_mono day step hw rs s₁ sw' t h ?_
        rw [hs₁, htt, swSet_bind_self]
        rfl
      · exact ih s₁ sw' h r hrs t ht

theorem rows_fold_bind_value (day : ℤ) (step : SoilWater → (ℚ × ℤ) → Option SoilWater)
    (F : SoilWater → (ℚ × ℤ) → Treatment → ℚ)
    (hw : ∀ sw r sw', step sw r = some sw' →
      ∃ t, treatment_type r.2 = some t ∧ sw' = swSet sw day t (F sw r t))
    (hcongr : ∀ sw₁ sw₂ r t, dlookup sw₁ (day - 1) = dlookup sw₂ (day - 1) →
      F sw₁ r t = F sw₂ r t) :
    ∀ (rows : List (ℚ × ℤ)) (sw sw' : SoilWater),
      List.foldlM step sw rows = some sw' →
      rows.Pairwise (fun r₁ r₂ => treatment_type r₁.2 ≠ treatment_type r₂.2) →
      ∀ r ∈ rows, ∀ t, treatment_type r.2 = some t →
        (dlookup sw' day).bind (fun inner => dlookup inner t) = some (F sw r t) := by
  have hw' : ∀ sw r sw', step sw r = some sw' →
      ∃ t v, treatment_type r.2 = some t ∧ sw' = swSet sw day t v := by
    intro sw r sw' h
    obtain ⟨t, ht, hs⟩ := hw sw r sw' h
    exact ⟨t, F sw r t, ht, hs⟩
  intro rows
  induction rows with
  | nil => intro sw sw' h _ r hr; simp at hr
  | cons r₀ rs ih =>
    intro sw sw' h hpw r hr t ht
    simp only [List.foldlM_cons, Option.bind_eq_bind] at h
    cases hr₀ : step sw r₀ with
    | none => rw [hr₀] at h; simp at h
    | some s₁ =>
      rw [hr₀] at h
      simp only [Option.some_bind] at h
      obtain ⟨t₁, ht₁, hs₁⟩ := hw sw r₀ s₁ hr₀
      rcases List.mem_cons.mp hr with hreq | hrs
      · subst hreq
        have htt : t₁ = t := by
          rw [ht] at ht₁
          exact ((Option.some.injEq _ _).mp ht₁).symm
        subst htt
        rw [rows_fold_bind_preserve day step hw' rs s₁ sw' t₁ h
          (fun r' hr' hcontra => (List.pairwise_cons.mp hpw).1 r' hr' (ht₁ ▸ hcontra ▸ rfl)),
          hs₁, swSet_bind_self]
      · have hprev : dlookup s₁ (day - 1) = dlookup sw (day - 1) := by
          rw [hs₁]
          exact dlookup_swSet_ne sw day t₁ _ (day - 1) (by omega)
        rw [ih s₁ sw' h (List.pairwise_cons.mp hpw).2 r hrs t ht,
          hcongr s₁ sw r t hprev]

/-! ### The four row bodies are single-treatment writes at their own date -/

theorem fill_irrigation_row_write (precipitation : List (ℤ × ℚ)) (soilVolume : ℚ)
    (day : ℤ) (sw : SoilWater) (r : ℚ × ℤ) (sw' : SoilWater)
    (h : fill_irrigation_row precipitation soilVolume day sw r = some sw') :
    ∃ t, treatment_type r.2 = some t ∧ sw' = swSet sw day t
      (min soilVolume (((dlookup precipitation day).getD 0 + r.1) +
        yesterdays_soil_value sw day t)) := by
  unfold fill_irrigation_row at h
  cases ht : treatment_type r.2 with
  | none => rw [ht] at h; simp at h
  | some t =>
    rw [ht] at h
    simp only [Option.map_some', Option.some.injEq] at h
    exact ⟨t, rfl, h.symm⟩

theorem steady_irrigation_row_write (precipitation evaporation : List (ℤ × ℚ))
    (soilVolume : ℚ) (day : ℤ) (sw : SoilWater) (r : ℚ × ℤ) (sw' : SoilWater)
    (h : steady_irrigation_row precipitation evaporation soilVolume day sw r = some sw') :
    ∃ t, treatment_type r.2 = some t ∧ sw' = swSet sw day t
      (max (min (yesterdays_soil_value sw day t - (dlookup evaporation day).getD 0 +
        ((dlookup precipitation day).getD 0 + r.1)) soilVolume) 0) := by
  unfold steady_irrigation_row at h
  cases ht : treatment_type r.2 with
  | none => rw [ht] at h; simp at h
  | some t =>
    rw [ht] at h
    simp only [Option.map_some', Option.some.injEq] at h
    exact ⟨t, rfl, h.symm⟩

theorem shelter_fill_irrigation_row_write (precipitation : List (ℤ × ℚ)) (soilVolume : ℚ)
    (day : ℤ) (sw : SoilWater) (r : ℚ × ℤ) (sw' : SoilWater)
    (h : shelter_fill_irrigation_row precipitation soilVolume day sw r = some sw') :
    ∃ t, treatment_type r.2 = some t ∧ sw' = swSet sw day t
      (min soilVolume ((match t with
        | Treatment.control => (dlookup precipitation day).getD 0 + r.1
        | Treatment.stress => r.1) + yesterdays_soil_value sw day t)) := by
  unfold shelter_fill_irrigation_row at h
  cases ht : treatment_type r.2 with
  | none => rw [ht] at h; simp at h
  | some t =>
    rw [ht] at h
    simp only [Option.map_some', Option.some.injEq] at h
    exact ⟨t, rfl, h.symm⟩

theorem shelter_steady_irrigation_row_write (precipitation evaporation : List (ℤ × ℚ))
    (soilVolume : ℚ) (firstAfter : Option ℤ) (day : ℤ) (sw : SoilWater) (r : ℚ × ℤ)
    (sw' : SoilWater)
    (h : shelter_steady_irrigation_row precipitation evaporation soilVolume firstAfter day
      sw r = some sw') :
    ∃ t, treatment_type r.2 = some t ∧ sw' = swSet sw day t
      (max (min ((if firstAfter = some day then
          yesterdays_soil_value sw day Treatment.control
        else yesterdays_soil_value sw day t) - (dlookup evaporation day).getD 0 +
        ((dlookup precipitation day).getD 0 + r.1)) soilVolume) 0) := by
  unfold shelter_steady_irrigation_row at h
  cases ht : treatment_type r.2 with
  | none => rw [ht] at h; simp at h
  | some t =>
    rw [ht] at h
    simp only [Option.map_some', Option.some.injEq] at h
    exact ⟨t, rfl, h.symm⟩

/-! ### Splitting a whole-trial run at one day -/

theorem foldlM_split_daterange (step : SoilWater → ℤ → Option SoilWater)
    (hframe : ∀ s d s', step s d = some s' → ∀ x, x ≠ d → dlookup s' x = dlookup s x)
    (start : ℤ) (n i : ℕ) (hin : i < n) (sw : SoilWater)
    (h : List.foldlM step [] (daterange start n) = some sw) :
    ∃ s₁ s₂, List.foldlM step [] (daterange start i) = some s₁ ∧
      step s₁ (start + i) = some s₂ ∧
      dlookup s₁ (start + i) = none ∧
      dlookup sw (start + i) = dlookup s₂ (start + i) ∧
      dlookup sw (start + i - 1) = dlookup s₂ (start + i - 1) ∧
      dlookup s₂ (start + i - 1) = dlookup s₁ (start + i - 1) := by
  have hn : n = i + (n - i - 1 + 1) := by omega
  rw [hn, daterange_append start i (n - i - 1 + 1)] at h
  rw [foldlM_option_append] at h
  cases h₁ : List.foldlM step [] (daterange start i) with
  | none => rw [h₁] at h; simp at h
  | some s₁ =>
    rw [h₁] at h
    simp only [Option.some_bind] at h
    have hcons : daterange (start + i) (n - i - 1 + 1) =
        (start + i) :: daterange (start + i + 1) (n - i - 1) := rfl
    rw [hcons] at h
    simp only [List.foldlM_cons, Option.bind_eq_bind] at h
    cases h₂ : step s₁ (start + i) with
    | none => rw [h₂] at h; simp at h
    | some s₂ =>
      rw [h₂] at h
      simp only [Option.some_bind] at h
      refine ⟨s₁, s₂, rfl, h₂, ?_, ?_, ?_, ?_⟩
      · have hfr := foldlM_option_frame step (fun s => dlookup s (start + i))
          (daterange start i) [] s₁
          (fun s₀ a s₃ ha hs => hframe s₀ a s₃ hs (start + i)
            (by
              rw [mem_daterange] at ha
              omega))
          h₁
        exact hfr.trans rfl
      · exact foldlM_option_frame step (fun s => dlookup s (start + i))
          (daterange (start + i + 1) (n - i - 1)) s₂ sw
          (fun s₀ a s₃ ha hs => hframe s₀ a s₃ hs (start + i)
            (by
              rw [mem_daterange] at ha
              omega))
          h
      · exact foldlM_option_frame step (fun s => dlookup s (start + i - 1))
          (daterange (start + i + 1) (n - i - 1)) s₂ sw
          (fun s₀ a s₃ ha hs => hframe s₀ a s₃ hs (start + i - 1)
            (by
              rw [mem_daterange] at ha
              omega))
          h
      · exact hframe s₁ (start + i) s₂ h₂ (start + i - 1) (by omega)

theorem mem_initial_take (start : ℤ) (n i : ℕ) (hin : i < n) :
    (start + (i : ℤ)) ∈ (daterange start n).take 14 ↔ i < 14 := by
  rw [take_daterange, mem_daterange]
  omega

/-! ### A run over all-empty feeds stores only zeros -/

theorem dictInsert_of_not_mem {κ α : Type} [DecidableEq κ] (m : List (κ × α)) (k : κ)
    (v : α) (h : dlookup m k = none) : dictInsert m k v = m ++ [(k, v)] := by
  induction m with
  | nil => simp [dictInsert]
  | cons head rest ih =>
    obtain ⟨k', v'⟩ := head
    simp only [dlookup] at h
    by_cases hk : k = k'
    · rw [if_pos hk] at h
      exact absurd h (by simp)
    · rw [if_neg hk] at h
      simp only [dictInsert, if_neg hk, List.cons_append]
      rw [ih h]

theorem dlookup_append_of_none {κ α : Type} [DecidableEq κ] (m m₂ : List (κ × α)) (k : κ)
    (h : dlookup m k = none) : dlookup (m ++ m₂) k = dlookup m₂ k := by
  induction m with
  | nil => simp
  | cons head rest ih =>
    obtain ⟨k', v'⟩ := head
    simp only [dlookup] at h
    by_cases hk : k = k'
    · rw [if_pos hk] at h
      exact absurd h (by simp)
    · rw [if_neg hk] at h
      simp only [List.cons_append, dlookup, if_neg hk]
      exact ih h

theorem dictInsert_append_replace {κ α : Type} [DecidableEq κ] (m : List (κ × α)) (k : κ)
    (x v : α) (h : dlookup m k = none) : dictInsert (m ++ [(k, x)]) k v = m ++ [(k, v)] := by
  induction m with
  | nil => simp [dictInsert]
  | cons head rest ih =>
    obtain ⟨k', v'⟩ := head
    simp only [dlookup] at h
    by_cases hk : k = k'
    · rw [if_pos hk] at h
      exact absurd h (by simp)
    · rw [if_neg hk] at h
      simp only [List.cons_append, dictInsert, if_neg hk]
      exact congrArg (List.cons (k', v')) (ih h)

theorem swSet_pair_of_not_mem (acc : SoilWater) (day : ℤ) (v₁ v₂ : ℚ)
    (h : dlookup acc day = none) :
    swSet (swSet acc day Treatment.control v₁) day Treatment.stress v₂ =
      acc ++ [(day, [(Treatment.control, v₁), (Treatment.stress, v₂)])] := by
  unfold swSet
  rw [h]
  simp only [Option.getD_none]
  rw [dictInsert_of_not_mem acc day _ h, dlookup_append_of_none acc _ day h]
  have h1 : dlookup [(day, dictInsert ([] : List (Treatment × ℚ)) Treatment.control v₁)]
      day = some (dictInsert ([] : List (Treatment × ℚ)) Treatment.control v₁) := by
    simp [dlookup]
  rw [h1]
  simp only [Option.getD_some]
  rw [dictInsert_append_replace acc day _ _ h]
  simp [dictInsert]

theorem zero_fold (step : SoilWater → ℤ → Option SoilWater)
    (hstep : ∀ (acc : SoilWater) (day : ℤ),
      (∀ en ∈ acc, en.2 = [(Treatment.control, (0 : ℚ)), (Treatment.stress, 0)]) →
      dlookup acc day = none →
      step acc day =
        some (acc ++ [(day, [(Treatment.control, (0 : ℚ)), (Treatment.stress, 0)])])) :
    ∀ (ds : List ℤ) (acc : SoilWater), ds.Nodup →
      (∀ en ∈ acc, en.2 = [(Treatment.control, (0 : ℚ)), (Treatment.stress, 0)]) →
      (∀ d ∈ ds, dlookup acc d = none) →
      List.foldlM step acc ds =
        some (acc ++ ds.map fun d =>
          (d, [(Treatment.control, (0 : ℚ)), (Treatment.stress, 0)])) := by
  intro ds
  induction ds with
  | nil =>
    intro acc _ _ _
    simp
  | cons d rest ih =>
    intro acc hnd hinv hlook
    simp only [List.foldlM_cons, Option.bind_eq_bind]
    rw [hstep acc d hinv (hlook d (List.mem_cons_self _ _))]
    simp only [Option.some_bind]
    have hinv' : ∀ en ∈ acc ++ [(d, [(Treatment.control, (0 : ℚ)), (Treatment.stress, 0)])],
        en.2 = [(Treatment.control, (0 : ℚ)), (Treatment.stress, 0)] := by
      intro en hen
      rcases List.mem_append.mp hen with hen | hen
      · exact hinv en hen
      · simp only [List.mem_singleton] at hen
        rw [hen]
    have hlook' : ∀ d' ∈ rest,
        dlookup (acc ++ [(d, [(Treatment.control, (0 : ℚ)), (Treatment.stress, 0)])]) d'
          = none := by
      intro d' hd'
      rw [dlookup_append_of_none acc _ d' (hlook d' (List.mem_cons_of_mem _ hd'))]
      have hne : d' ≠ d := by
        intro hdd
        exact (List.nodup_cons.mp hnd).1 (hdd ▸ hd')
      simp [dlookup, hne]
    rw [ih _ (List.nodup_cons.mp hnd).2 hinv' hlook']
    simp

theorem yesterdays_zero (acc : SoilWater) (day : ℤ)
    (hinv : ∀ en ∈ acc, en.2 = [(Treatment.control, (0 : ℚ)), (Treatment.stress, 0)]) :
    ∀ t, yesterdays_soil_value acc day t = 0 := by
  intro t
  unfold yesterdays_soil_value
  cases h1 : dlookup acc (day - 1) with
  | none => rfl
  | some inner =>
    have h2 : inner = [(Treatment.control, (0 : ℚ)), (Treatment.stress, 0)] :=
      hinv _ (dlookup_mem _ _ _ h1)
    rw [h2]
    cases t <;> simp [dlookup]

theorem soil_zero_step (soilVolume : ℚ) (hsV : 0 ≤ soilVolume) (init : List ℤ)
    (acc : SoilWater) (day : ℤ)
    (hinv : ∀ en ∈ acc, en.2 = [(Treatment.control, (0 : ℚ)), (Treatment.stress, 0)])
    (hnone : dlookup acc day = none) :
    soil_water_step [] [] [] soilVolume init acc day =
      some (acc ++ [(day, [(Treatment.control, (0 : ℚ)), (Treatment.stress, 0)])]) := by
  have hy := yesterdays_zero acc day hinv
  have hy₁ : ∀ t, yesterdays_soil_value (swSet acc day Treatment.control 0) day t = 0 := by
    intro t
    rw [yesterdays_congr _ acc day (dlookup_swSet_ne _ _ _ _ _ (by omega)) t]
    exact hy t
  unfold soil_water_step
  by_cases hd : day ∈ init
  · rw [if_pos hd]
    show some (fill_no_irrigation [] soilVolume day acc) = _
    unfold fill_no_irrigation
    simp only [dlookup, Option.getD_none, hy, add_zero, zero_add, min_eq_right hsV, hy₁]
    rw [swSet_pair_of_not_mem acc day 0 0 hnone]
  · rw [if_neg hd]
    show some (steady_no_irrigation [] [] soilVolume day acc) = _
    unfold steady_no_irrigation
    simp only [dlookup, Option.getD_none, hy, add_zero, zero_add, sub_zero,
      min_eq_left hsV, max_self, hy₁]
    rw [swSet_pair_of_not_mem acc day 0 0 hnone]

theorem shelter_zero_step (soilVolume : ℚ) (hsV : 0 ≤ soilVolume) (init : List ℤ)
    (firstAfter : Option ℤ) (acc : SoilWater) (day : ℤ)
    (hinv : ∀ en ∈ acc, en.2 = [(Treatment.control, (0 : ℚ)), (Treatment.stress, 0)])
    (hnone : dlookup acc day = none) :
    shelter_step [] [] [] soilVolume init firstAfter acc day =
      some (acc ++ [(day, [(Treatment.control, (0 : ℚ)), (Treatment.stress, 0)])]) := by
  have hy := yesterdays_zero acc day hinv
  have hy₁ : ∀ t, yesterdays_soil_value (swSet acc day Treatment.control 0) day t = 0 := by
    intro t
    rw [yesterdays_congr _ acc day (dlookup_swSet_ne _ _ _ _ _ (by omega)) t]
    exact hy t
  unfold shelter_step
  by_cases hd : day ∈ init
  · rw [if_pos hd]
    show some (shelter_fill_no_irrigation [] soilVolume day acc) = _
    unfold shelter_fill_no_irrigation
    simp only [dlookup, Option.getD_none, hy, add_zero, zero_add, min_eq_right hsV, hy₁]
    rw [swSet_pair_of_not_mem acc day 0 0 hnone]
  · rw [if_neg hd]
    show some (shelter_steady_no_irrigation [] [] soilVolume firstAfter day acc) = _
    unfold shelter_steady_no_irrigation
    simp only [dlookup, Option.getD_none, hy, ite_self, add_zero, zero_add, sub_zero,
      min_eq_left hsV, max_self, hy₁]
    rw [swSet_pair_of_not_mem acc day 0 0 hnone]

theorem daterange_nodup (start : ℤ) (n : ℕ) : (daterange start n).Nodup := by
  induction n generalizing start with
  | zero => simp [daterange]
  | succ k ih =>
    simp only [daterange, List.nodup_cons]
    refine ⟨?_, ih (start + 1)⟩
    rw [mem_daterange]
    omega

/-- Claim C1: on a consecutive trial window, for every date past the first
14 window dates and every treatment whose value is computed that day, the
soil water value stored by `get_soil_water` equals yesterday's same-treatment
value minus the day's evaporation plus the day's precipitation plus the
treatment's irrigation amount when an irrigation record lists it (one row per
treatment), clamped to `[0, soilVolume]`; a date without an irrigation record
applies the same precipitation-only gain to both treatments. -/
theorem soil_water_steady_state (start : ℤ) (n : ℕ)
    (precipitation evaporation : List (ℤ × ℚ)) (soilVolume availMoistCap : ℚ)
    (irrigation : List (ℤ × List (ℚ × ℤ))) (i : ℕ) (h14 : 14 ≤ i) (hin : i < n)
    (sw : SoilWater)
    (hsw : get_soil_water (daterange start n) precipitation evaporation soilVolume
      availMoistCap irrigation = some sw) :
    (∀ rows, dlookup irrigation (start + i) = some rows →
      rows.Pairwise (fun r₁ r₂ => treatment_type r₁.2 ≠ treatment_type r₂.2) →
      ∀ r ∈ rows, ∀ t, treatment_type r.2 = some t →
        (dlookup sw (start + i)).bind (fun inner => dlookup inner t) =
          some (max (min (yesterdays_soil_value sw (start + i) t -
            (dlookup evaporation (start + i)).getD 0 +
            ((dlookup precipitation (start + i)).getD 0 + r.1)) soilVolume) 0)) ∧
    (dlookup irrigation (start + i) = none →
      ∀ t, (dlookup sw (start + i)).bind (fun inner => dlookup inner t) =
        some (max (min (yesterdays_soil_value sw (start + i) t -
          (dlookup evaporation (start + i)).getD 0 +
          (dlookup precipitation (start + i)).getD 0) soilVolume) 0)) := by
  unfold get_soil_water at hsw
  obtain ⟨s₁, s₂, hs₁, hs₂, hnone, heq, heqy, heqy₂⟩ :=
    foldlM_split_daterange _
      (fun s d s' h x hx => soil_water_step_frame precipitation evaporation irrigation
        soilVolume ((daterange start n).take 14) s s' d h x hx)
      start n i hin sw hsw
  have hni : (start + (i : ℤ)) ∉ (daterange start n).take 14 := by
    rw [mem_initial_take start n i hin]
    omega
  unfold soil_water_step at hs₂
  rw [if_neg hni] at hs₂
  have hyst : ∀ t, yesterdays_soil_value sw (start + i) t =
      yesterdays_soil_value s₁ (start + i) t := by
    intro t
    exact yesterdays_congr sw s₁ (start + i) (heqy.trans heqy₂) t
  constructor
  · intro rows hrows hpw r hr t ht
    rw [hrows] at hs₂
    have hval := rows_fold_bind_value (start + i)
      (steady_irrigation_row precipitation evaporation soilVolume (start + i))
      (fun sw r t => max (min (yesterdays_soil_value sw (start + i) t -
        (dlookup evaporation (start + i)).getD 0 +
        ((dlookup precipitation (start + i)).getD 0 + r.1)) soilVolume) 0)
      (fun sw r sw' h => steady_irrigation_row_write _ _ _ _ _ _ _ h)
      (fun sw₁ sw₂ r t hprev => by
        have hyy := yesterdays_congr sw₁ sw₂ (start + i) hprev t
        simp only [hyy])
      rows s₁ s₂ hs₂ hpw r hr t ht
    rw [heq, hval, hyst t]
  · intro hno t
    rw [hno] at hs₂
    simp only [Option.some.injEq] at hs₂
    rw [heq, ← hs₂]
    unfold steady_no_irrigation
    cases t with
    | stress =>
      rw [swSet_bind_self]
      have hys : yesterdays_soil_value
          (swSet s₁ (start + i) Treatment.control
            (max (min (yesterdays_soil_value s₁ (start + i) Treatment.control -
              (dlookup evaporation (start + i)).getD 0 +
              (dlookup precipitation (start + i)).getD 0) soilVolume) 0))
          (start + i) Treatment.stress =
          yesterdays_soil_value s₁ (start + i) Treatment.stress :=
        yesterdays_congr _ _ _
          (dlookup_swSet_ne _ _ _ _ _ (by omega)) _
      rw [hys, hyst]
    | control =>
      rw [swSet_bind_ne _ _ _ _ _ (by simp), swSet_bind_self, hyst]

/-- Witness for `soil_water_steady_state`: a 15-date window with empty
precipitation, evaporation and irrigation feeds; day 14 is the first
steady-state date and both treatments satisfy the no-irrigation steady rule. -/
theorem soil_water_steady_state_witness :
    (14 ≤ 14 ∧ 14 < 15) ∧
    get_soil_water (daterange 0 15) [] [] 10 (14 / 100) [] =
      some ((daterange 0 15).map fun d =>
        (d, [(Treatment.control, (0 : ℚ)), (Treatment.stress, 0)])) ∧
    (dlookup ([] : List (ℤ × List (ℚ × ℤ))) (0 + (14 : ℕ)) = none →
      ∀ t, (dlookup ((daterange 0 15).map fun d =>
          (d, [(Treatment.control, (0 : ℚ)), (Treatment.stress, 0)])) (0 + (14 : ℕ))).bind
          (fun inner => dlookup inner t) =
        some (max (min (yesterdays_soil_value ((daterange 0 15).map fun d =>
            (d, [(Treatment.control, (0 : ℚ)), (Treatment.stress, 0)])) (0 + (14 : ℕ)) t -
          (dlookup ([] : List (ℤ × ℚ)) (0 + (14 : ℕ))).getD 0 +
          (dlookup ([] : List (ℤ × ℚ)) (0 + (14 : ℕ))).getD 0) 10) 0)) := by
  have hsw : get_soil_water (daterange 0 15) [] [] 10 (14 / 100) [] =
      some ((daterange 0 15).map fun d =>
        (d, [(Treatment.control, (0 : ℚ)), (Treatment.stress, 0)])) := by
    unfold get_soil_water
    have hz := zero_fold (soil_water_step [] [] [] 10 ((daterange 0 15).take 14))
      (fun acc day hinv hnone => soil_zero_step 10 (by norm_num) _ acc day hinv hnone)
      (daterange 0 15) [] (daterange_nodup 0 15) (by simp) (fun d _ => rfl)
    rw [hz]
    simp
  exact ⟨⟨le_refl 14, by omega⟩, hsw,
    (soil_water_steady_state 0 15 [] [] 10 (14 / 100) [] 14 (le_refl 14) (by omega)
      _ hsw).2⟩

/-! ### Bounds invariant for the soil water balance -/

theorem dlookup_getD_nonneg (p : List (ℤ × ℚ)) (hp : ∀ en ∈ p, 0 ≤ en.2) (day : ℤ) :
    0 ≤ (dlookup p day).getD 0 := by
  cases h : dlookup p day with
  | none => simp
  | some v => simpa using hp (day, v) (dlookup_mem p day v h)

theorem ysv_nonneg (soilVolume : ℚ) (sw : SoilWater)
    (hP : ∀ d l, dlookup sw d = some l → ∀ t v, dlookup l t = some v →
      0 ≤ v ∧ v ≤ soilVolume)
    (day : ℤ) (t : Treatment) : 0 ≤ yesterdays_soil_value sw day t := by
  unfold yesterdays_soil_value
  cases h1 : dlookup sw (day - 1) with
  | none => exact le_refl (0 : ℚ)
  | some inner =>
    show (0 : ℚ) ≤ (dlookup inner t).getD 0
    cases h2 : dlookup inner t with
    | none => exact le_refl (0 : ℚ)
    | some v => exact (hP _ _ h1 _ _ h2).1

theorem swSet_preserves_bound (soilVolume : ℚ) (sw : SoilWater) (day : ℤ) (t : Treatment)
    (v : ℚ)
    (hP : ∀ d l, dlookup sw d = some l → ∀ t' v', dlookup l t' = some v' →
      0 ≤ v' ∧ v' ≤ soilVolume)
    (h0 : 0 ≤ v) (h1 : v ≤ soilVolume) :
    ∀ d l, dlookup (swSet sw day t v) d = some l → ∀ t' v', dlookup l t' = some v' →
      0 ≤ v' ∧ v' ≤ soilVolume := by
  intro d l hd t' v' hv'
  by_cases hday : d = day
  · subst hday
    rw [dlookup_swSet_self] at hd
    simp only [Option.some.injEq] at hd
    rw [← hd] at hv'
    by_cases ht' : t' = t
    · subst ht'
      rw [dlookup_dictInsert_self] at hv'
      simp only [Option.some.injEq] at hv'
      rw [← hv']
      exact ⟨h0, h1⟩
    · rw [dlookup_dictInsert_ne _ _ _ _ ht'] at hv'
      cases hb : dlookup sw d with
      | none =>
        rw [hb] at hv'
        simp [dlookup] at hv'
      | some l₀ =>
        rw [hb] at hv'
        exact hP d l₀ hb t' v' hv'
  · rw [dlookup_swSet_ne _ _ _ _ _ hday] at hd
    exact hP d l hd t' v' hv'

theorem soil_water_step_bound (precipitation evaporation : List (ℤ × ℚ))
    (irrigation : List (ℤ × List (ℚ × ℤ))) (soilVolume : ℚ) (init : List ℤ)
    (hsV : 0 ≤ soilVolume) (hp : ∀ en ∈ precipitation, 0 ≤ en.2)
    (hirr : ∀ en ∈ irrigation, ∀ r ∈ en.2, 0 ≤ r.1)
    (s₀ : SoilWater) (day : ℤ) (s₁ : SoilWater)
    (hstep : soil_water_step precipitation evaporation irrigation soilVolume init s₀ day
      = some s₁)
    (hP : ∀ d l, dlookup s₀ d = some l → ∀ t v, dlookup l t = some v →
      0 ≤ v ∧ v ≤ soilVolume) :
    ∀ d l, dlookup s₁ d = some l → ∀ t v, dlookup l t = some v →
      0 ≤ v ∧ v ≤ soilVolume := by
  have hpd : 0 ≤ (dlookup precipitation day).getD 0 := dlookup_getD_nonneg _ hp day
  unfold soil_water_step at hstep
  by_cases hd : day ∈ init
  · rw [if_pos hd] at hstep
    cases hirrday : dlookup irrigation day with
    | none =>
      rw [hirrday] at hstep
      simp only [Option.some.injEq] at hstep
      rw [← hstep]
      unfold fill_no_irrigation
      have hP₁ := swSet_preserves_bound soilVolume s₀ day Treatment.control _ hP
        (le_min hsV (add_nonneg hpd (ysv_nonneg soilVolume s₀ hP day Treatment.control)))
        (min_le_left _ _)
      exact swSet_preserves_bound soilVolume _ day Treatment.stress _ hP₁
        (le_min hsV (add_nonneg hpd (ysv_nonneg soilVolume _ hP₁ day Treatment.stress)))
        (min_le_left _ _)
    | some rows =>
      rw [hirrday] at hstep
      have hrowsmem := dlookup_mem _ _ _ hirrday
      refine foldlM_option_induction _
        (fun s => ∀ d l, dlookup s d = some l → ∀ t v, dlookup l t = some v →
          0 ≤ v ∧ v ≤ soilVolume)
        rows s₀ s₁ ?_ hstep hP
      intro sw r sw' hr hstep' hPsw
      obtain ⟨t, ht, hsw'⟩ := fill_irrigation_row_write _ _ _ _ _ _ hstep'
      rw [hsw']
      exact swSet_preserves_bound soilVolume sw day t _ hPsw
        (le_min hsV (add_nonneg (add_nonneg hpd (hirr _ hrowsmem r hr))
          (ysv_nonneg soilVolume sw hPsw day t)))
        (min_le_left _ _)
  · rw [if_neg hd] at hstep
    cases hirrday : dlookup irrigation day with
    | none =>
      rw [hirrday] at hstep
      simp only [Option.some.injEq] at hstep
      rw [← hstep]
      unfold steady_no_irrigation
      have hP₁ := swSet_preserves_bound soilVolume s₀ day Treatment.control
        (max (min (yesterdays_soil_value s₀ day Treatment.control -
          (dlookup evaporation day).getD 0 + (dlookup precipitation day).getD 0)
          soilVolume) 0) hP
        (le_max_right _ _) (max_le (min_le_right _ _) hsV)
      exact swSet_preserves_bound soilVolume _ day Treatment.stress _ hP₁
        (le_max_right _ _) (max_le (min_le_right _ _) hsV)
    | some rows =>
      rw [hirrday] at hstep
      refine foldlM_option_induction _
        (fun s => ∀ d l, dlookup s d = some l → ∀ t v, dlookup l t = some v →
          0 ≤ v ∧ v ≤ soilVolume)
        rows s₀ s₁ ?_ hstep hP
      intro sw r sw' hr hstep' hPsw
      obtain ⟨t, ht, hsw'⟩ := steady_irrigation_row_write _ _ _ _ _ _ _ hstep'
      rw [hsw']
      exact swSet_preserves_bound soilVolume sw day t _ hPsw
        (le_max_right _ _) (max_le (min_le_right _ _) hsV)

/-- Claim C2 (amended): for every trial-date list and every input with
non-negative precipitation values, non-negative irrigation amounts and a
non-negative `soilVolume`, every value stored by `get_soil_water` (in both
the fill and the steady-state phase) lies in `[0, soilVolume]`.  Without the
non-negativity of `soilVolume`, which the claim leaves implicit, the fill
phase can store `soilVolume` itself below the interval. -/
theorem soil_water_bounds (trial_dates : List ℤ)
    (precipitation evaporation : List (ℤ × ℚ)) (soilVolume availMoistCap : ℚ)
    (irrigation : List (ℤ × List (ℚ × ℤ)))
    (hsV : 0 ≤ soilVolume) (hp : ∀ en ∈ precipitation, 0 ≤ en.2)
    (hirr : ∀ en ∈ irrigation, ∀ r ∈ en.2, 0 ≤ r.1) (sw : SoilWater)
    (hsw : get_soil_water trial_dates precipitation evaporation soilVolume availMoistCap
      irrigation = some sw) :
    ∀ d l, dlookup sw d = some l → ∀ t v, dlookup l t = some v →
      0 ≤ v ∧ v ≤ soilVolume := by
  unfold get_soil_water at hsw
  refine foldlM_option_induction _
    (fun s => ∀ d l, dlookup s d = some l → ∀ t v, dlookup l t = some v →
      0 ≤ v ∧ v ≤ soilVolume)
    trial_dates [] sw ?_ hsw ?_
  · intro s₀ day s₁ _ hstep hP
    exact soil_water_step_bound precipitation evaporation irrigation soilVolume _
      hsV hp hirr s₀ day s₁ hstep hP
  · intro d l hd
    simp [dlookup] at hd

/-- Witness for `soil_water_bounds`: a one-day trial with 5 mm precipitation
and capacity 10 stores the value 5 for both treatments, inside `[0, 10]`. -/
theorem soil_water_bounds_witness :
    ((0 : ℚ) ≤ 10 ∧ (∀ en ∈ ([(0, 5)] : List (ℤ × ℚ)), 0 ≤ en.2)) ∧
    get_soil_water [0] [(0, 5)] [] 10 (14 / 100) [] =
      some [(0, [(Treatment.control, 5), (Treatment.stress, 5)])] ∧
    (∀ d l, dlookup [((0 : ℤ), [(Treatment.control, (5 : ℚ)), (Treatment.stress, 5)])] d
        = some l → ∀ t v, dlookup l t = some v → 0 ≤ v ∧ v ≤ 10) := by
  have hsw : get_soil_water [0] [(0, 5)] [] 10 (14 / 100) [] =
      some [(0, [(Treatment.control, 5), (Treatment.stress, 5)])] := by
    norm_num [get_soil_water, soil_water_step, fill_no_irrigation, swSet, dictInsert,
      dlookup, yesterdays_soil_value]
    all_goals decide
  exact ⟨⟨by norm_num, by norm_num⟩, hsw,
    soil_water_bounds [0] [(0, 5)] [] 10 (14 / 100) [] (by norm_num) (by norm_num)
      (by simp) _ hsw⟩

/-- Counterexample to claim C2 as stated: with non-negative precipitation
(5 mm) and no irrigation but a negative `soilVolume = -1`, the fill phase
stores `min(-1, 5) = -1`, which does not lie in the (empty) interval
`[0, -1]` — the claim omits the needed non-negativity of `soilVolume`. -/
theorem soil_water_bounds_cex :
    (∀ en ∈ ([(0, 5)] : List (ℤ × ℚ)), 0 ≤ en.2) ∧
    get_soil_water [0] [(0, 5)] [] (-1) (14 / 100) [] =
      some [(0, [(Treatment.control, -1), (Treatment.stress, -1)])] ∧
    ¬(0 ≤ (-1 : ℚ)) := by
  refine ⟨by norm_num, ?_, by norm_num⟩
  norm_num [get_soil_water, soil_water_step, fill_no_irrigation, swSet, dictInsert,
    dlookup, yesterdays_soil_value]
  all_goals decide

/-- Claim C10: on a trial window whose date `start + i` has an irrigation
record listing rows for some treatments only, `get_soil_water` stores a value
on that date exactly for the listed treatments: an unlisted treatment gets no
entry, and the predecessor lookup of the following date returns the default
`0.0` for it, silently restarting its series from zero. -/
theorem soil_water_partial_irrigation (start : ℤ) (n : ℕ)
    (precipitation evaporation : List (ℤ × ℚ)) (soilVolume availMoistCap : ℚ)
    (irrigation : List (ℤ × List (ℚ × ℤ))) (i : ℕ) (hin : i < n) (sw : SoilWater)
    (hsw : get_soil_water (daterange start n) precipitation evaporation soilVolume
      availMoistCap irrigation = some sw)
    (rows : List (ℚ × ℤ)) (hrows : dlookup irrigation (start + i) = some rows)
    (t : Treatment) (hunlisted : ∀ r ∈ rows, treatment_type r.2 ≠ some t) :
    (dlookup sw (start + i)).bind (fun inner => dlookup inner t) = none ∧
    (∀ r ∈ rows, ∀ t', treatment_type r.2 = some t' →
      ((dlookup sw (start + i)).bind (fun inner => dlookup inner t')).isSome = true) ∧
    yesterdays_soil_value sw (start + i + 1) t = 0 := by
  unfold get_soil_water at hsw
  obtain ⟨s₁, s₂, hs₁, hs₂, hnone, heq, heqy, heqy₂⟩ :=
    foldlM_split_daterange _
      (fun s d s' h x hx => soil_water_step_frame precipitation evaporation irrigation
        soilVolume ((daterange start n).take 14) s s' d h x hx)
      start n i hin sw hsw
  have hbind₁ : (dlookup s₁ (start + i)).bind (fun inner => dlookup inner t) = none := by
    rw [hnone]
    rfl
  unfold soil_water_step at hs₂
  have hmain : (dlookup s₂ (start + i)).bind (fun inner => dlookup inner t) = none ∧
      (∀ r ∈ rows, ∀ t', treatment_type r.2 = some t' →
        ((dlookup s₂ (start + i)).bind (fun inner => dlookup inner t')).isSome = true) := by
    by_cases hd : (start + (i : ℤ)) ∈ (daterange start n).take 14
    · rw [if_pos hd, hrows] at hs₂
      refine ⟨?_, ?_⟩
      · rw [rows_fold_bind_preserve (start + i)
          (fill_irrigation_row precipitation soilVolume (start + i))
          (fun sw r sw' h => by
            obtain ⟨t₀, ht₀, hw₀⟩ := fill_irrigation_row_write _ _ _ _ _ _ h
            exact ⟨t₀, _, ht₀, hw₀⟩)
          rows s₁ s₂ t hs₂ hunlisted]
        exact hbind₁
      · intro r hr t' ht'
        exact rows_fold_bind_isSome (start + i)
          (fill_irrigation_row precipitation soilVolume (start + i))
          (fun sw r sw' h => by
            obtain ⟨t₀, ht₀, hw₀⟩ := fill_irrigation_row_write _ _ _ _ _ _ h
            exact ⟨t₀, _, ht₀, hw₀⟩)
          rows s₁ s₂ hs₂ r hr t' ht'
    · rw [if_neg hd, hrows] at hs₂
      refine ⟨?_, ?_⟩
      · rw [rows_fold_bind_preserve (start + i)
          (steady_irrigation_row precipitation evaporation soilVolume (start + i))
          (fun sw r sw' h => by
            obtain ⟨t₀, ht₀, hw₀⟩ := steady_irrigation_row_write _ _ _ _ _ _ _ h
            exact ⟨t₀, _, ht₀, hw₀⟩)
          rows s₁ s₂ t hs₂ hunlisted]
        exact hbind₁
      · intro r hr t' ht'
        exact rows_fold_bind_isSome (start + i)
          (steady_irrigation_row precipitation evaporation soilVolume (start + i))
          (fun sw r sw' h => by
            obtain ⟨t₀, ht₀, hw₀⟩ := steady_irrigation_row_write _ _ _ _ _ _ _ h
            exact ⟨t₀, _, ht₀, hw₀⟩)
          rows s₁ s₂ hs₂ r hr t' ht'
  have hswbind : (dlookup sw (start + i)).bind (fun inner => dlookup inner t) = none := by
    rw [heq]
    exact hmain.1
  refine ⟨hswbind, fun r hr t' ht' => ?_, ?_⟩
  · rw [heq]
    exact hmain.2 r hr t' ht'
  · unfold yesterdays_soil_value
    have harith : start + (i : ℤ) + 1 - 1 = start + i := by ring
    rw [harith]
    cases hx : dlookup sw (start + i) with
    | none => rfl
    | some inner =>
      rw [hx] at hswbind
      simp only [Option.some_bind] at hswbind
      show (dlookup inner t).getD 0 = 0
      rw [hswbind]
      rfl

/-- Witness for `soil_water_partial_irrigation`: a two-day window whose first
day irrigates only the stress treatment (id 170); control gets no entry on
day 0 and restarts from 0 on day 1. -/
theorem soil_water_partial_irrigation_witness :
    (0 < 2 ∧
      dlookup [((0 : ℤ), [((5 : ℚ), (170 : ℤ))])] ((0 : ℤ) + (0 : ℕ)) = some [(5, 170)] ∧
      get_soil_water (daterange 0 2) [] [] 10 (14 / 100) [(0, [(5, 170)])] =
        some [(0, [(Treatment.stress, 5)]),
          (1, [(Treatment.control, 0), (Treatment.stress, 5)])]) ∧
    ((dlookup [((0 : ℤ), [(Treatment.stress, (5 : ℚ))]),
        (1, [(Treatment.control, 0), (Treatment.stress, 5)])] ((0 : ℤ) + (0 : ℕ))).bind
      (fun inner => dlookup inner Treatment.control) = none ∧
    (∀ r ∈ [((5 : ℚ), (170 : ℤ))], ∀ t', treatment_type r.2 = some t' →
      ((dlookup [((0 : ℤ), [(Treatment.stress, (5 : ℚ))]),
          (1, [(Treatment.control, 0), (Treatment.stress, 5)])] ((0 : ℤ) + (0 : ℕ))).bind
        (fun inner => dlookup inner t')).isSome = true) ∧
    yesterdays_soil_value [((0 : ℤ), [(Treatment.stress, (5 : ℚ))]),
      (1, [(Treatment.control, 0), (Treatment.stress, 5)])] ((0 : ℤ) + (0 : ℕ) + 1)
      Treatment.control = 0) := by
  have hsw : get_soil_water (daterange 0 2) [] [] 10 (14 / 100) [(0, [(5, 170)])] =
      some [(0, [(Treatment.stress, 5)]),
        (1, [(Treatment.control, 0), (Treatment.stress, 5)])] := by
    norm_num [get_soil_water, soil_water_step, fill_no_irrigation, fill_irrigation_row,
      treatment_type, swSet, dictInsert, dlookup, yesterdays_soil_value, daterange]
    all_goals decide
  refine ⟨⟨by norm_num, by decide, hsw⟩, ?_⟩
  exact soil_water_partial_irrigation 0 2 [] [] 10 (14 / 100) [(0, [(5, 170)])] 0
    (by norm_num) _ hsw [(5, 170)] (by decide) Treatment.control (by decide)

/-- Claim C4: evaluation at the failing input.  The list `[0, 2]` is not
consecutive (`are_consecutive` decides so), yet `get_soil_water` happily
produces a soil water mapping for it instead of failing fast — the
`are_consecutive` guard exists in the module but is never invoked by
`get_soil_water` (the repository's earlier revision getClimateData.py
asserted it). -/
theorem non_consecutive_not_rejected :
    are_consecutive [0, 2] = false ∧
    (get_soil_water [0, 2] [] [] 10 (14 / 100) []).isSome = true := by
  constructor
  · decide
  · decide

theorem build_irrigation_ne_nil (feed_rows : List (ℤ × ℚ × ℤ)) (h : feed_rows ≠ []) :
    build_irrigation feed_rows ≠ [] := by
  have hfold : ∀ (rs : List (ℤ × ℚ × ℤ)) (m : List (ℤ × List (ℚ × ℤ))), m ≠ [] →
      rs.foldl (fun m r => dictAppend m r.1 r.2) m ≠ [] := by
    intro rs
    induction rs with
    | nil => intro m hm; simpa using hm
    | cons a as ih =>
      intro m hm
      simp only [List.foldl_cons]
      exact ih _ (dictAppend_ne_nil _ _ _)
  cases feed_rows with
  | nil => exact absurd rfl h
  | cons r rs =>
    unfold build_irrigation
    simp only [List.foldl_cons]
    exact hfold rs _ (dictAppend_ne_nil _ _ _)

/-- Claim C3: for a trial whose culture id is 47109 or 56879 and whose
irrigation feed returned at least one row, the orchestrator's
`hasIrrigation` flag (climate_data.py line 642) is `True`, while
`get_drought_stress_days` returns a single (before, after) pair computed
from the Control series only — the unirrigated shape — rather than a pair
of per-treatment pairs, and uses the ordinary (non-shelter) balance. -/
theorem indistinct_irrigation_single_result (culture_id : ℤ)
    (hcid : culture_id = 47109 ∨ culture_id = 56879)
    (feed_rows : List (ℤ × ℚ × ℤ)) (hrows : feed_rows ≠ [])
    (trial_dates : List ℤ) (evaporation : List (ℤ × ℚ)) (hev : evaporation ≠ [])
    (soilVolume availMoistCap : ℚ) (precipitation : List (ℤ × ℚ))
    (stress_threshold : ℚ) (flowering_date : ℤ) :
    has_irrigation (build_irrigation feed_rows) = true ∧
    get_drought_stress_days culture_id trial_dates evaporation soilVolume availMoistCap
        precipitation (build_irrigation feed_rows) stress_threshold flowering_date =
      (get_soil_water trial_dates precipitation evaporation soilVolume availMoistCap
        (build_irrigation feed_rows)).map
        (fun soil_water => DroughtResult.single
          (stress_days (control_series soil_water) flowering_date stress_threshold)) := by
  have hb := build_irrigation_ne_nil feed_rows hrows
  constructor
  · unfold has_irrigation
    simp [hb]
  · unfold get_drought_stress_days
    rw [if_neg (by simp [hev])]
    have hnshelter : ¬(culture_id = 56875 ∨ culture_id = 62327) := by
      rcases hcid with h | h <;> subst h <;> decide
    rw [if_neg hnshelter]
    cases hso : get_soil_water trial_dates precipitation evaporation soilVolume
        availMoistCap (build_irrigation feed_rows) with
    | none => rfl
    | some soil_water =>
      simp only [Option.map_some', Option.some.injEq]
      rw [if_neg ?hcond]
      case hcond =>
        intro hcontra
        rcases hcid with h | h <;> subst h
        · exact hcontra.2 (Or.inl rfl)
        · exact hcontra.2 (Or.inr rfl)

/-- Witness for `indistinct_irrigation_single_result`: culture 47109 with a
single irrigation feed row on a one-day trial. -/
theorem indistinct_irrigation_single_result_witness :
    has_irrigation (build_irrigation [(0, 5, 170)]) = true ∧
    get_drought_stress_days 47109 [0] [(0, 1)] 10 (14 / 100) []
        (build_irrigation [(0, 5, 170)]) 10 1 =
      (get_soil_water [0] [] [(0, 1)] 10 (14 / 100)
        (build_irrigation [(0, 5, 170)])).map
        (fun soil_water => DroughtResult.single
          (stress_days (control_series soil_water) 1 10)) :=
  indistinct_irrigation_single_result 47109 (Or.inl rfl) [(0, 5, 170)] (by decide)
    [0] [(0, 1)] (by decide) 10 (14 / 100) [] 10 1

set_option maxHeartbeats 1600000 in
/-- Claim C8: for culture ids 56875 and 62327 the drought computation routes
through `get_shelter_soil_water`; in that variant the fill-phase water gain
of the stress treatment is the irrigation amount alone (`0.0` without an
irrigation record) while control keeps precipitation plus irrigation, and on
exactly the first steady-state date (the 15th window date) the previous-day
value is read from the Control series for both treatments, while on every
later steady-state date each treatment reads its own series. -/
theorem shelter_trial_override :
    (∀ (culture_id : ℤ), culture_id = 56875 ∨ culture_id = 62327 →
      ∀ (trial_dates : List ℤ) (evaporation : List (ℤ × ℚ)), evaporation ≠ [] →
      ∀ (soilVolume availMoistCap : ℚ) (precipitation : List (ℤ × ℚ))
        (irrigation : List (ℤ × List (ℚ × ℤ))) (stress_threshold : ℚ)
        (flowering_date : ℤ),
        get_drought_stress_days culture_id trial_dates evaporation soilVolume
            availMoistCap precipitation irrigation stress_threshold flowering_date =
          (get_shelter_soil_water trial_dates precipitation evaporation soilVolume
            availMoistCap irrigation).map
            (fun soil_water =>
              if irrigation.isEmpty = false then
                DroughtResult.perTreatment
                  (stress_days (control_series soil_water) flowering_date stress_threshold)
                  (stress_days (stress_series soil_water) flowering_date stress_threshold)
              else
                DroughtResult.single
                  (stress_days (control_series soil_water) flowering_date
                    stress_threshold))) ∧
    (∀ (start : ℤ) (n : ℕ) (precipitation evaporation : List (ℤ × ℚ))
        (soilVolume availMoistCap : ℚ) (irrigation : List (ℤ × List (ℚ × ℤ))) (i : ℕ),
        i < 14 → i < n → ∀ sw : SoilWater,
        get_shelter_soil_water (daterange start n) precipitation evaporation soilVolume
          availMoistCap irrigation = some sw →
        (∀ rows, dlookup irrigation (start + i) = some rows →
          rows.Pairwise (fun r₁ r₂ => treatment_type r₁.2 ≠ treatment_type r₂.2) →
          ∀ r ∈ rows,
            (treatment_type r.2 = some Treatment.stress →
              (dlookup sw (start + i)).bind (fun inner => dlookup inner Treatment.stress) =
                some (min soilVolume (r.1 +
                  yesterdays_soil_value sw (start + i) Treatment.stress))) ∧
            (treatment_type r.2 = some Treatment.control →
              (dlookup sw (start + i)).bind (fun inner => dlookup inner Treatment.control) =
                some (min soilVolume (((dlookup precipitation (start + i)).getD 0 + r.1) +
                  yesterdays_soil_value sw (start + i) Treatment.control)))) ∧
        (dlookup irrigation (start + i) = none →
          (dlookup sw (start + i)).bind (fun inner => dlookup inner Treatment.stress) =
            some (min soilVolume
              (0 + yesterdays_soil_value sw (start + i) Treatment.stress)) ∧
          (dlookup sw (start + i)).bind (fun inner => dlookup inner Treatment.control) =
            some (min soilVolume ((dlookup precipitation (start + i)).getD 0 +
              yesterdays_soil_value sw (start + i) Treatment.control)))) ∧
    (∀ (start : ℤ) (n : ℕ) (precipitation evaporation : List (ℤ × ℚ))
        (soilVolume availMoistCap : ℚ) (irrigation : List (ℤ × List (ℚ × ℤ))),
        14 < n → ∀ sw : SoilWater,
        get_shelter_soil_water (daterange start n) precipitation evaporation soilVolume
          availMoistCap irrigation = some sw →
        (∀ rows, dlookup irrigation (start + 14) = some rows →
          rows.Pairwise (fun r₁ r₂ => treatment_type r₁.2 ≠ treatment_type r₂.2) →
          ∀ r ∈ rows, ∀ t, treatment_type r.2 = some t →
            (dlookup sw (start + 14)).bind (fun inner => dlookup inner t) =
              some (max (min (yesterdays_soil_value sw (start + 14) Treatment.control -
                (dlookup evaporation (start + 14)).getD 0 +
                ((dlookup precipitation (start + 14)).getD 0 + r.1)) soilVolume) 0)) ∧
        (dlookup irrigation (start + 14) = none → ∀ t,
          (dlookup sw (start + 14)).bind (fun inner => dlookup inner t) =
            some (max (min (yesterdays_soil_value sw (start + 14) Treatment.control -
              (dlookup evaporation (start + 14)).getD 0 +
              (dlookup precipitation (start + 14)).getD 0) soilVolume) 0))) ∧
    (∀ (start : ℤ) (n : ℕ) (precipitation evaporation : List (ℤ × ℚ))
        (soilVolume availMoistCap : ℚ) (irrigation : List (ℤ × List (ℚ × ℤ))) (i : ℕ),
        14 < i → i < n → ∀ sw : SoilWater,
        get_shelter_soil_water (daterange start n) precipitation evaporation soilVolume
          availMoistCap irrigation = some sw →
        (∀ rows, dlookup irrigation (start + i) = some rows →
          rows.Pairwise (fun r₁ r₂ => treatment_type r₁.2 ≠ treatment_type r₂.2) →
          ∀ r ∈ rows, ∀ t, treatment_type r.2 = some t →
            (dlookup sw (start + i)).bind (fun inner => dlookup inner t) =
              some (max (min (yesterdays_soil_value sw (start + i) t -
                (dlookup evaporation (start + i)).getD 0 +
                ((dlookup precipitation (start + i)).getD 0 + r.1)) soilVolume) 0)) ∧
        (dlookup irrigation (start + i) = none → ∀ t,
          (dlookup sw (start + i)).bind (fun inner => dlookup inner t) =
            some (max (min (yesterdays_soil_value sw (start + i) t -
              (dlookup evaporation (start + i)).getD 0 +
              (dlookup precipitation (start + i)).getD 0) soilVolume) 0))) := by
  refine ⟨?_, ?_, ?_, ?_⟩
  · intro culture_id hcid trial_dates evaporation hev soilVolume availMoistCap
      precipitation irrigation stress_threshold flowering_date
    unfold get_drought_stress_days
    rw [if_neg (by simp [hev]), if_pos hcid]
    cases hso : get_shelter_soil_water trial_dates precipitation evaporation soilVolume
        availMoistCap irrigation with
    | none => rfl
    | some soil_water =>
      simp only [Option.map_some', Option.some.injEq]
      have hne : ¬(culture_id = 47109 ∨ culture_id = 56879) := by
        rcases hcid with h | h <;> subst h <;> decide
      cases hie : irrigation.isEmpty with
      | true => rw [if_neg (by simp), if_neg (by simp)]
      | false => rw [if_pos ⟨by simp, hne⟩, if_pos rfl]
  · intro start n precipitation evaporation soilVolume availMoistCap irrigation i
      h14 hin sw hsw
    unfold get_shelter_soil_water at hsw
    obtain ⟨s₁, s₂, hs₁, hs₂, hnone, heq, heqy, heqy₂⟩ :=
      foldlM_split_daterange _
        (fun s d s' h x hx => shelter_step_frame precipitation evaporation irrigation
          soilVolume ((daterange start n).take 14) (daterange start n)[14]? s s' d h x hx)
        start n i hin sw hsw
    have hini : (start + (i : ℤ)) ∈ (daterange start n).take 14 := by
      rw [mem_initial_take start n i hin]
      exact h14
    unfold shelter_step at hs₂
    rw [if_pos hini] at hs₂
    have hyst : ∀ t, yesterdays_soil_value sw (start + i) t =
        yesterdays_soil_value s₁ (start + i) t := by
      intro t
      exact yesterdays_congr sw s₁ (start + i) (heqy.trans heqy₂) t
    constructor
    · intro rows hrows hpw r hr
      rw [hrows] at hs₂
      have hval := rows_fold_bind_value (start + i)
        (shelter_fill_irrigation_row precipitation soilVolume (start + i))
        (fun sw r t => min soilVolume ((match t with
          | Treatment.control => (dlookup precipitation (start + i)).getD 0 + r.1
          | Treatment.stress => r.1) + yesterdays_soil_value sw (start + i) t))
        (fun sw r sw' h => shelter_fill_irrigation_row_write _ _ _ _ _ _ h)
        (fun sw₁ sw₂ r t hprev => by
          have hyy := yesterdays_congr sw₁ sw₂ (start + i) hprev t
          simp only [hyy])
        rows s₁ s₂ hs₂ hpw r hr
      constructor
      · intro ht
        rw [heq, hyst Treatment.stress]
        exact hval Treatment.stress ht
      · intro ht
        rw [heq, hyst Treatment.control]
        exact hval Treatment.control ht
    · intro hno
      rw [hno] at hs₂
      simp only [Option.some.injEq] at hs₂
      rw [heq, ← hs₂]
      unfold shelter_fill_no_irrigation
      constructor
      · rw [swSet_bind_self]
        have hys : yesterdays_soil_value
            (swSet s₁ (start + i) Treatment.control
              (min soilVolume ((dlookup precipitation (start + i)).getD 0 +
                yesterdays_soil_value s₁ (start + i) Treatment.control)))
            (start + i) Treatment.stress =
            yesterdays_soil_value s₁ (start + i) Treatment.stress :=
          yesterdays_congr _ _ _ (dlookup_swSet_ne _ _ _ _ _ (by omega)) _
        rw [hys, hyst]
      · rw [swSet_bind_ne _ _ _ _ _ (by simp), swSet_bind_self, hyst]
  · intro start n precipitation evaporation soilVolume availMoistCap irrigation hn sw hsw
    unfold get_shelter_soil_water at hsw
    obtain ⟨s₁, s₂, hs₁, hs₂, hnone, heq, heqy, heqy₂⟩ :=
      foldlM_split_daterange _
        (fun s d s' h x hx => shelter_step_frame precipitation evaporation irrigation
          soilVolume ((daterange start n).take 14) (daterange start n)[14]? s s' d h x hx)
        start n 14 hn sw hsw
    have hc : start + ((14 : ℕ) : ℤ) = start + 14 := by norm_num
    rw [hc] at hs₂ hnone heq heqy heqy₂
    have hni : (start + (14 : ℤ)) ∉ (daterange start n).take 14 := by
      rw [← hc, mem_initial_take start n 14 hn]
      omega
    have hfa : (daterange start n)[14]? = some (start + 14) := by
      rw [getElem?_daterange start n 14 hn, hc]
    unfold shelter_step at hs₂
    rw [if_neg hni] at hs₂
    have hyst : ∀ t, yesterdays_soil_value sw (start + 14) t =
        yesterdays_soil_value s₁ (start + 14) t := by
      intro t
      exact yesterdays_congr sw s₁ (start + 14) (heqy.trans heqy₂) t
    constructor
    · intro rows hrows hpw r hr t ht
      rw [hrows] at hs₂
      have hval := rows_fold_bind_value (start + 14)
        (shelter_steady_irrigation_row precipitation evaporation soilVolume
          (daterange start n)[14]? (start + 14))
        (fun sw r t => max (min (yesterdays_soil_value sw (start + 14) Treatment.control -
          (dlookup evaporation (start + 14)).getD 0 +
          ((dlookup precipitation (start + 14)).getD 0 + r.1)) soilVolume) 0)
        (fun sw r sw' h => by
          obtain ⟨t₀, ht₀, hw₀⟩ := shelter_steady_irrigation_row_write _ _ _ _ _ _ _ _ h
          rw [if_pos hfa] at hw₀
          exact ⟨t₀, ht₀, hw₀⟩)
        (fun sw₁ sw₂ r t hprev => by
          have hy₂ := yesterdays_congr sw₁ sw₂ (start + 14) hprev Treatment.control
          simp only [hy₂])
        rows s₁ s₂ hs₂ hpw r hr t ht
      rw [heq, hyst Treatment.control]
      exact hval
    · intro hno t
      rw [hno] at hs₂
      simp only [Option.some.injEq] at hs₂
      rw [heq, ← hs₂]
      unfold shelter_steady_no_irrigation
      simp only [hfa, eq_self_iff_true, if_true]
      cases t with
      | stress =>
        rw [swSet_bind_self]
        have hys : yesterdays_soil_value
            (swSet s₁ (start + 14) Treatment.control
              (max (min (yesterdays_soil_value s₁ (start + 14) Treatment.control -
                (dlookup evaporation (start + 14)).getD 0 +
                (dlookup precipitation (start + 14)).getD 0) soilVolume) 0))
            (start + 14) Treatment.control =
            yesterdays_soil_value s₁ (start + 14) Treatment.control :=
          yesterdays_congr _ _ _ (dlookup_swSet_ne _ _ _ _ _ (by omega)) _
        rw [hys, hyst Treatment.control]
      | control =>
        rw [swSet_bind_ne _ _ _ _ _ (by simp), swSet_bind_self, hyst Treatment.control]
  · intro start n precipitation evaporation soilVolume availMoistCap irrigation i
      h14 hin sw hsw
    unfold get_shelter_soil_water at hsw
    obtain ⟨s₁, s₂, hs₁, hs₂, hnone, heq, heqy, heqy₂⟩ :=
      foldlM_split_daterange _
        (fun s d s' h x hx => shelter_step_frame precipitation evaporation irrigation
          soilVolume ((daterange start n).take 14) (daterange start n)[14]? s s' d h x hx)
        start n i hin sw hsw
    have hni : (start + (i : ℤ)) ∉ (daterange start n).take 14 := by
      rw [mem_initial_take start n i hin]
      omega
    have hfa : (daterange start n)[14]? = some (start + 14) := by
      rw [getElem?_daterange start n 14 (by omega)]
      norm_num
    have hfne : ¬((daterange start n)[14]? = some (start + (i : ℤ))) := by
      rw [hfa]
      simp only [Option.some.injEq]
      omega
    unfold shelter_step at hs₂
    rw [if_neg hni] at hs₂
    have hyst : ∀ t, yesterdays_soil_value sw (start + i) t =
        yesterdays_soil_value s₁ (start + i) t := by
      intro t
      exact yesterdays_congr sw s₁ (start + i) (heqy.trans heqy₂) t
    constructor
    · intro rows hrows hpw r hr t ht
      rw [hrows] at hs₂
      have hval := rows_fold_bind_value (start + i)
        (shelter_steady_irrigation_row precipitation evaporation soilVolume
          (daterange start n)[14]? (start + i))
        (fun sw r t => max (min (yesterdays_soil_value sw (start + i) t -
          (dlookup evaporation (start + i)).getD 0 +
          ((dlookup precipitation (start + i)).getD 0 + r.1)) soilVolume) 0)
        (fun sw r sw' h => by
          obtain ⟨t₀, ht₀, hw₀⟩ := shelter_steady_irrigation_row_write _ _ _ _ _ _ _ _ h
          rw [if_neg hfne] at hw₀
          exact ⟨t₀, ht₀, hw₀⟩)
        (fun sw₁ sw₂ r t hprev => by
          have hyy := yesterdays_congr sw₁ sw₂ (start + i) hprev t
          simp only [hyy])
        rows s₁ s₂ hs₂ hpw r hr t ht
      rw [heq, hyst t]
      exact hval
    · intro hno t
      rw [hno] at hs₂
      simp only [Option.some.injEq] at hs₂
      rw [heq, ← hs₂]
      unfold shelter_steady_no_irrigation
      simp only [hfne, if_false, ite_self]
      cases t with
      | stress =>
        rw [swSet_bind_self]
        have hys : yesterdays_soil_value
            (swSet s₁ (start + i) Treatment.control
              (max (min (yesterdays_soil_value s₁ (start + i) Treatment.control -
                (dlookup evaporation (start + i)).getD 0 +
                (dlookup precipitation (start + i)).getD 0) soilVolume) 0))
            (start + i) Treatment.stress =
            yesterdays_soil_value s₁ (start + i) Treatment.stress :=
          yesterdays_congr _ _ _ (dlookup_swSet_ne _ _ _ _ _ (by omega)) _
        rw [hys, hyst Treatment.stress]
      | control =>
        rw [swSet_bind_ne _ _ _ _ _ (by simp), swSet_bind_self, hyst Treatment.control]

/-- Witness for `shelter_trial_override`: culture 56875 with empty feeds; a
one-day window exercises the fill phase, a 15-day window exercises the
first steady-state date, and a 16-day window exercises a later steady-state
date reading its own series. -/
theorem shelter_trial_override_witness :
    (((56875 : ℤ) = 56875 ∨ (56875 : ℤ) = 62327) ∧ ([((0 : ℤ), (1 : ℚ))] ≠ [])) ∧
    (get_drought_stress_days 56875 [0] [(0, 1)] 10 (14 / 100) [] [] 10 1 =
      (get_shelter_soil_water [0] [] [(0, 1)] 10 (14 / 100) []).map
        (fun soil_water =>
          if ([] : List (ℤ × List (ℚ × ℤ))).isEmpty = false then
            DroughtResult.perTreatment (stress_days (control_series soil_water) 1 10)
              (stress_days (stress_series soil_water) 1 10)
          else DroughtResult.single (stress_days (control_series soil_water) 1 10))) ∧
    ((∀ rows, dlookup ([] : List (ℤ × List (ℚ × ℤ))) ((0 : ℤ) + (0 : ℕ)) = some rows →
      rows.Pairwise (fun r₁ r₂ => treatment_type r₁.2 ≠ treatment_type r₂.2) →
      ∀ r ∈ rows,
        (treatment_type r.2 = some Treatment.stress →
          (dlookup ((daterange 0 1).map fun d =>
              (d, [(Treatment.control, (0 : ℚ)), (Treatment.stress, 0)]))
              ((0 : ℤ) + (0 : ℕ))).bind (fun inner => dlookup inner Treatment.stress) =
            some (min 10 (r.1 + yesterdays_soil_value ((daterange 0 1).map fun d =>
              (d, [(Treatment.control, (0 : ℚ)), (Treatment.stress, 0)]))
              ((0 : ℤ) + (0 : ℕ)) Treatment.stress))) ∧
        (treatment_type r.2 = some Treatment.control →
          (dlookup ((daterange 0 1).map fun d =>
              (d, [(Treatment.control, (0 : ℚ)), (Treatment.stress, 0)]))
              ((0 : ℤ) + (0 : ℕ))).bind (fun inner => dlookup inner Treatment.control) =
            some (min 10 (((dlookup ([] : List (ℤ × ℚ)) ((0 : ℤ) + (0 : ℕ))).getD 0 + r.1) +
              yesterdays_soil_value ((daterange 0 1).map fun d =>
                (d, [(Treatment.control, (0 : ℚ)), (Treatment.stress, 0)]))
                ((0 : ℤ) + (0 : ℕ)) Treatment.control)))) ∧
    (dlookup ([] : List (ℤ × List (ℚ × ℤ))) ((0 : ℤ) + (0 : ℕ)) = none →
      (dlookup ((daterange 0 1).map fun d =>
          (d, [(Treatment.control, (0 : ℚ)), (Treatment.stress, 0)]))
          ((0 : ℤ) + (0 : ℕ))).bind (fun inner => dlookup inner Treatment.stress) =
        some (min 10 (0 + yesterdays_soil_value ((daterange 0 1).map fun d =>
          (d, [(Treatment.control, (0 : ℚ)), (Treatment.stress, 0)]))
          ((0 : ℤ) + (0 : ℕ)) Treatment.stress)) ∧
      (dlookup ((daterange 0 1).map fun d =>
          (d, [(Treatment.control, (0 : ℚ)), (Treatment.stress, 0)]))
          ((0 : ℤ) + (0 : ℕ))).bind (fun inner => dlookup inner Treatment.control) =
        some (min 10 ((dlookup ([] : List (ℤ × ℚ)) ((0 : ℤ) + (0 : ℕ))).getD 0 +
          yesterdays_soil_value ((daterange 0 1).map fun d =>
            (d, [(Treatment.control, (0 : ℚ)), (Treatment.stress, 0)]))
            ((0 : ℤ) + (0 : ℕ)) Treatment.control)))) ∧
    ((∀ rows, dlookup ([] : List (ℤ × List (ℚ × ℤ))) ((0 : ℤ) + 14) = some rows →
      rows.Pairwise (fun r₁ r₂ => treatment_type r₁.2 ≠ treatment_type r₂.2) →
      ∀ r ∈ rows, ∀ t, treatment_type r.2 = some t →
        (dlookup ((daterange 0 15).map fun d =>
            (d, [(Treatment.control, (0 : ℚ)), (Treatment.stress, 0)]))
            ((0 : ℤ) + 14)).bind (fun inner => dlookup inner t) =
          some (max (min (yesterdays_soil_value ((daterange 0 15).map fun d =>
              (d, [(Treatment.control, (0 : ℚ)), (Treatment.stress, 0)]))
              ((0 : ℤ) + 14) Treatment.control -
            (dlookup ([] : List (ℤ × ℚ)) ((0 : ℤ) + 14)).getD 0 +
            ((dlookup ([] : List (ℤ × ℚ)) ((0 : ℤ) + 14)).getD 0 + r.1)) 10) 0)) ∧
    (dlookup ([] : List (ℤ × List (ℚ × ℤ))) ((0 : ℤ) + 14) = none → ∀ t,
      (dlookup ((daterange 0 15).map fun d =>
          (d, [(Treatment.control, (0 : ℚ)), (Treatment.stress, 0)]))
          ((0 : ℤ) + 14)).bind (fun inner => dlookup inner t) =
        some (max (min (yesterdays_soil_value ((daterange 0 15).map fun d =>
            (d, [(Treatment.control, (0 : ℚ)), (Treatment.stress, 0)]))
            ((0 : ℤ) + 14) Treatment.control -
          (dlookup ([] : List (ℤ × ℚ)) ((0 : ℤ) + 14)).getD 0 +
          (dlookup ([] : List (ℤ × ℚ)) ((0 : ℤ) + 14)).getD 0) 10) 0))) ∧
    ((∀ rows, dlookup ([] : List (ℤ × List (ℚ × ℤ))) ((0 : ℤ) + (15 : ℕ)) = some rows →
      rows.Pairwise (fun r₁ r₂ => treatment_type r₁.2 ≠ treatment_type r₂.2) →
      ∀ r ∈ rows, ∀ t, treatment_type r.2 = some t →
        (dlookup ((daterange 0 16).map fun d =>
            (d, [(Treatment.control, (0 : ℚ)), (Treatment.stress, 0)]))
            ((0 : ℤ) + (15 : ℕ))).bind (fun inner => dlookup inner t) =
          some (max (min (yesterdays_soil_value ((daterange 0 16).map fun d =>
              (d, [(Treatment.control, (0 : ℚ)), (Treatment.stress, 0)]))
              ((0 : ℤ) + (15 : ℕ)) t -
            (dlookup ([] : List (ℤ × ℚ)) ((0 : ℤ) + (15 : ℕ))).getD 0 +
            ((dlookup ([] : List (ℤ × ℚ)) ((0 : ℤ) + (15 : ℕ))).getD 0 + r.1)) 10) 0)) ∧
    (dlookup ([] : List (ℤ × List (ℚ × ℤ))) ((0 : ℤ) + (15 : ℕ)) = none → ∀ t,
      (dlookup ((daterange 0 16).map fun d =>
          (d, [(Treatment.control, (0 : ℚ)), (Treatment.stress, 0)]))
          ((0 : ℤ) + (15 : ℕ))).bind (fun inner => dlookup inner t) =
        some (max (min (yesterdays_soil_value ((daterange 0 16).map fun d =>
            (d, [(Treatment.control, (0 : ℚ)), (Treatment.stress, 0)]))
            ((0 : ℤ) + (15 : ℕ)) t -
          (dlookup ([] : List (ℤ × ℚ)) ((0 : ℤ) + (15 : ℕ))).getD 0 +
          (dlookup ([] : List (ℤ × ℚ)) ((0 : ℤ) + (15 : ℕ))).getD 0) 10) 0))) := by
  have hsw1 : get_shelter_soil_water (daterange 0 1) [] [] 10 (14 / 100) [] =
      some ((daterange 0 1).map fun d =>
        (d, [(Treatment.control, (0 : ℚ)), (Treatment.stress, 0)])) := by
    unfold get_shelter_soil_water
    have hz := zero_fold
      (shelter_step [] [] [] 10 ((daterange 0 1).take 14) (daterange 0 1)[14]?)
      (fun acc day hinv hnone =>
        shelter_zero_step 10 (by norm_num) _ _ acc day hinv hnone)
      (daterange 0 1) [] (daterange_nodup 0 1) (by simp) (fun d _ => rfl)
    rw [hz]
    simp
  have hsw15 : get_shelter_soil_water (daterange 0 15) [] [] 10 (14 / 100) [] =
      some ((daterange 0 15).map fun d =>
        (d, [(Treatment.control, (0 : ℚ)), (Treatment.stress, 0)])) := by
    unfold get_shelter_soil_water
    have hz := zero_fold
      (shelter_step [] [] [] 10 ((daterange 0 15).take 14) (daterange 0 15)[14]?)
      (fun acc day hinv hnone =>
        shelter_zero_step 10 (by norm_num) _ _ acc day hinv hnone)
      (daterange 0 15) [] (daterange_nodup 0 15) (by simp) (fun d _ => rfl)
    rw [hz]
    simp
  have hsw16 : get_shelter_soil_water (daterange 0 16) [] [] 10 (14 / 100) [] =
      some ((daterange 0 16).map fun d =>
        (d, [(Treatment.control, (0 : ℚ)), (Treatment.stress, 0)])) := by
    unfold get_shelter_soil_water
    have hz := zero_fold
      (shelter_step [] [] [] 10 ((daterange 0 16).take 14) (daterange 0 16)[14]?)
      (fun acc day hinv hnone =>
        shelter_zero_step 10 (by norm_num) _ _ acc day hinv hnone)
      (daterange 0 16) [] (daterange_nodup 0 16) (by simp) (fun d _ => rfl)
    rw [hz]
    simp
  refine ⟨⟨Or.inl rfl, by decide⟩, ?_, ?_, ?_, ?_⟩
  · exact shelter_trial_override.1 56875 (Or.inl rfl) [0] [(0, 1)] (by decide) 10
      (14 / 100) [] [] 10 1
  · exact shelter_trial_override.2.1 0 1 [] [] 10 (14 / 100) [] 0 (by omega) (by omega)
      _ hsw1
  · exact shelter_trial_override.2.2.1 0 15 [] [] 10 (14 / 100) [] (by omega) _ hsw15
  · exact shelter_trial_override.2.2.2 0 16 [] [] 10 (14 / 100) [] 15 (by omega)
      (by omega) _ hsw16

/-- Claim C6 (amended): each component of the pair returned by
`get_light_intensity` is the arithmetic mean of the per-date score
`(sum of positive readings) * (count of positive readings)` taken over all
dates of the bucket that carry at least one radiation reading of any sign
(a date whose readings are all nonpositive contributes score `0` and is
still averaged in), not only over the dates with a positive reading. -/
theorem light_intensity_bucket_means (light_data : List (ℤ × ℚ)) (flowering_date : ℤ)
    (b a : ℚ) (h : get_light_intensity light_data flowering_date = some (b, a)) :
    b = mean (((light_data.map Prod.fst).dedup.filter fun d => d < flowering_date).map
        (day_score light_data)) ∧
    a = mean (((light_data.map Prod.fst).dedup.filter fun d => ¬d < flowering_date).map
        (day_score light_data)) := by
  simp only [get_light_intensity] at h
  rw [dailyLight_filter_map light_data (fun d => decide (d < flowering_date)),
    dailyLight_filter_map light_data (fun d => decide (¬d < flowering_date))] at h
  split at h
  · exact absurd h (by simp)
  · simp only [Option.some.injEq, Prod.mk.injEq] at h
    exact ⟨h.1.symm, h.2.symm⟩

/-- Witness for `light_intensity_bucket_means`: on two positive readings on
day 0 and one on day 2 with flowering date 2, the function returns
`(600, 50)` and both components are the claimed bucket means. -/
theorem light_intensity_bucket_means_witness :
    get_light_intensity [(0, 100), (0, 200), (2, 50)] 2 = some (600, 50) ∧
    ((600 : ℚ) = mean ((([((0 : ℤ), (100 : ℚ)), (0, 200), (2, 50)].map Prod.fst).dedup.filter
        fun d => d < 2).map (day_score [(0, 100), (0, 200), (2, 50)])) ∧
      (50 : ℚ) = mean ((([((0 : ℤ), (100 : ℚ)), (0, 200), (2, 50)].map Prod.fst).dedup.filter
        fun d => ¬d < 2).map (day_score [(0, 100), (0, 200), (2, 50)]))) :=
  ⟨by norm_num [get_light_intensity, dailyLight, dictAppend, List.dedup, List.pwFilter, mean],
    light_intensity_bucket_means [(0, 100), (0, 200), (2, 50)] 2 600 50
      (by norm_num [get_light_intensity, dailyLight, dictAppend, List.dedup, List.pwFilter,
        mean])⟩

/-- Counterexample to claim C6 as stated: on readings 100 and 200 on day 0,
a single negative reading on day 1 and 50 on day 2 (flowering date 2), the
code averages the day-1 score 0 into the before bucket and returns 300,
while the claimed mean over the dates with a positive reading is 600. -/
theorem light_intensity_mean_cex :
    get_light_intensity [(0, 100), (0, 200), (1, -5), (2, 50)] 2 = some (300, 50) ∧
    light_intensity_claim [(0, 100), (0, 200), (1, -5), (2, 50)] 2 = (600, 50) ∧
    (300 : ℚ) ≠ 600 := by
  refine ⟨?_, ?_, by norm_num⟩
  · norm_num [get_light_intensity, dailyLight, dictAppend, List.dedup, List.pwFilter, mean]
  · norm_num [light_intensity_claim, positive_readings, day_score, mean, List.dedup,
      List.pwFilter]

/-- Claim C9 (amended): `get_light_intensity` hits the division-by-zero
error (`none`) exactly when one of the two flowering buckets contains no
date with any radiation reading at all; a bucket date whose readings are
all nonpositive (zero qualifying days in the claim's sense) still prevents
the error. -/
theorem light_intensity_error_iff (light_data : List (ℤ × ℚ)) (flowering_date : ℤ) :
    get_light_intensity light_data flowering_date = none ↔
      ((light_data.map Prod.fst).dedup.filter fun d => d < flowering_date) = [] ∨
      ((light_data.map Prod.fst).dedup.filter fun d => ¬d < flowering_date) = [] := by
  simp only [get_light_intensity]
  rw [dailyLight_filter_map light_data (fun d => decide (d < flowering_date)),
    dailyLight_filter_map light_data (fun d => decide (¬d < flowering_date))]
  split
  · rename_i hcond
    simp only [List.length_eq_zero, List.map_eq_nil_iff] at hcond
    simpa using hcond
  · rename_i hcond
    simp only [List.length_eq_zero, List.map_eq_nil_iff] at hcond
    push_neg at hcond
    simp [hcond.1, hcond.2]

/-- Counterexample to claim C9 as stated: with a single negative reading on
day 0 and a positive reading on day 1 (flowering date 1), the before bucket
has zero qualifying days (no date before flowering has a positive reading),
yet the function raises no error and returns `(0, 100)` — the 0 for the
empty-scored bucket is exactly the silent coercion the claim rules out. -/
theorem light_intensity_error_cex :
    (([((0 : ℤ), (-5 : ℚ)), (1, 100)].map Prod.fst).dedup.filter
      fun d => d < 1 ∧ positive_readings [(0, -5), (1, 100)] d ≠ []) = [] ∧
    get_light_intensity [(0, -5), (1, 100)] 1 = some (0, 100) := by
  constructor
  · norm_num [positive_readings, List.dedup, List.pwFilter]
  · norm_num [get_light_intensity, dailyLight, dictAppend, List.dedup, List.pwFilter, mean]

/-- Claim C5: evaluation of `get_temp_stress_days` at the divergence point.
A single reading of exactly `0.0` °C with `tlb = 8.0` contributes nothing
(the Python truthiness test `if temp:` discards the value `0.0` as if it
were missing), although the claim requires a cold contribution of `8.0`;
a reading of `5.0` °C contributes the claimed `3.0`. -/
theorem temp_stress_zero_reading_dropped :
    get_temp_stress_days [⟨0, some 0, none, none⟩] 30 8 1 = (0, 0, 0, 0) ∧
    get_temp_stress_days [⟨0, some 5, none, none⟩] 30 8 1 = (3, 0, 0, 0) := by
  constructor <;>
    norm_num [get_temp_stress_days, dailyMinMaxTemp, dictInsert, dlookup, truthy,
      List.dedup, List.pwFilter]

/-! ### Characterising the evaporation estimator -/

theorem dlookup_daily_vpd (climate_data : List ClimateRow) (d : ℤ) :
    dlookup (daily_vpd climate_data) d =
      if vpd_values truthy climate_data d = [] then none
      else some (vpd_values truthy climate_data d) := by
  have hv := dlookup_foldl_dictAppend ClimateRow.day
    (fun r => truthy r.temperature && truthy r.humidity)
    (fun r => calc_VPD ((r.temperature.getD 0 : ℚ) : ℝ) (((r.humidity.getD 0 : ℚ) : ℝ) / 100))
    climate_data [] d
  by_cases hsel : vpd_values truthy climate_data d = []
  · rw [if_pos hsel]
    exact (hv.1 hsel).trans rfl
  · rw [if_neg hsel]
    exact (hv.2 hsel).trans (congrArg some (List.nil_append _))

theorem dlookup_daily_windspeed (climate_data : List ClimateRow) (d : ℤ) :
    dlookup (daily_windspeed climate_data) d =
      if windspeed_values truthy climate_data d = [] then none
      else some (windspeed_values truthy climate_data d) := by
  have hv := dlookup_foldl_dictAppend ClimateRow.day (fun r => truthy r.windspeed)
    (fun r => ((r.windspeed.getD 0 : ℚ) : ℝ)) climate_data [] d
  by_cases hsel : windspeed_values truthy climate_data d = []
  · rw [if_pos hsel]
    exact (hv.1 hsel).trans rfl
  · rw [if_neg hsel]
    exact (hv.2 hsel).trans (congrArg some (List.nil_append _))

theorem vpd_values_ne_nil (p : Option ℚ → Bool) (climate_data : List ClimateRow) (d : ℤ) :
    vpd_values p climate_data d ≠ [] ↔
      ∃ r ∈ climate_data, r.day = d ∧ (p r.temperature && p r.humidity) = true := by
  unfold vpd_values
  rw [ne_eq, List.map_eq_nil_iff, List.filter_eq_nil_iff]
  push_neg
  constructor
  · rintro ⟨r, hr, hpr⟩
    simp only [Bool.and_eq_true, decide_eq_true_eq] at hpr
    exact ⟨r, hr, hpr.1, by simp [Bool.and_eq_true, hpr.2.1, hpr.2.2]⟩
  · rintro ⟨r, hr, hrd, hpr⟩
    simp only [Bool.and_eq_true] at hpr
    exact ⟨r, hr, by simp [Bool.and_eq_true, decide_eq_true_eq, hrd, hpr.1, hpr.2]⟩

theorem windspeed_values_ne_nil (p : Option ℚ → Bool) (climate_data : List ClimateRow)
    (d : ℤ) :
    windspeed_values p climate_data d ≠ [] ↔
      ∃ r ∈ climate_data, r.day = d ∧ p r.windspeed = true := by
  unfold windspeed_values
  rw [ne_eq, List.map_eq_nil_iff, List.filter_eq_nil_iff]
  push_neg
  constructor
  · rintro ⟨r, hr, hpr⟩
    simp only [Bool.and_eq_true, decide_eq_true_eq] at hpr
    exact ⟨r, hr, hpr.1, hpr.2⟩
  · rintro ⟨r, hr, hrd, hpr⟩
    exact ⟨r, hr, by simp [Bool.and_eq_true, decide_eq_true_eq, hrd, hpr]⟩

/-- Claim C7 (amended): `get_evaporation` yields a value for a date exactly
when the date has at least one hour with truthy (non-null and nonzero)
temperature and humidity and at least one hour with truthy windspeed, and
that value is `0.376 * meanVPD * (meanWindspeed * 2.23693629205) ^ 0.76`
with both means taken over the truthy hours; a reading of exactly `0.0` is
treated as absent (Python truthiness), not merely a `None` reading as the
claim's "present" wording suggests.  Absent dates are `none`, not errors. -/
theorem evaporation_truthy_characterisation (climate_data : List ClimateRow) (d : ℤ) :
    ((get_evaporation climate_data d).isSome = true ↔
      ((∃ r ∈ climate_data, r.day = d ∧ (truthy r.temperature && truthy r.humidity) = true) ∧
        ∃ r ∈ climate_data, r.day = d ∧ truthy r.windspeed = true)) ∧
    (∀ v, get_evaporation climate_data d = some v →
      v = 0.376 * mean (vpd_values truthy climate_data d) *
        Real.rpow (mean (windspeed_values truthy climate_data d) * 2.23693629205) 0.76) := by
  unfold get_evaporation
  by_cases hd : d ∈ climate_data.map ClimateRow.day
  · rw [if_pos hd, dlookup_daily_vpd, dlookup_daily_windspeed]
    by_cases h1 : vpd_values truthy climate_data d = []
    · rw [if_pos h1]
      have hA : ¬∃ r ∈ climate_data, r.day = d ∧
          (truthy r.temperature && truthy r.humidity) = true :=
        fun hA => (vpd_values_ne_nil truthy climate_data d).mpr hA h1
      by_cases h2 : windspeed_values truthy climate_data d = []
      · rw [if_pos h2]
        exact ⟨iff_of_false (by simp) fun hc => hA hc.1, fun v hv => by simp at hv⟩
      · rw [if_neg h2]
        exact ⟨iff_of_false (by simp) fun hc => hA hc.1, fun v hv => by simp at hv⟩
    · rw [if_neg h1]
      have hA : ∃ r ∈ climate_data, r.day = d ∧
          (truthy r.temperature && truthy r.humidity) = true :=
        (vpd_values_ne_nil truthy climate_data d).mp h1
      by_cases h2 : windspeed_values truthy climate_data d = []
      · rw [if_pos h2]
        have hB : ¬∃ r ∈ climate_data, r.day = d ∧ truthy r.windspeed = true :=
          fun hB => (windspeed_values_ne_nil truthy climate_data d).mpr hB h2
        exact ⟨iff_of_false (by simp) fun hc => hB hc.2, fun v hv => by simp at hv⟩
      · rw [if_neg h2]
        have hB : ∃ r ∈ climate_data, r.day = d ∧ truthy r.windspeed = true :=
          (windspeed_values_ne_nil truthy climate_data d).mp h2
        refine ⟨iff_of_true (by simp) ⟨hA, hB⟩, fun v hv => ?_⟩
        simp only [Option.some.injEq] at hv
        exact hv.symm
  · rw [if_neg hd]
    constructor
    · simp only [Option.isSome_none, Bool.false_eq_true, false_iff]
      rintro ⟨⟨r, hr, hrd, _⟩, _⟩
      exact hd (hrd ▸ List.mem_map_of_mem ClimateRow.day hr)
    · intro v hv
      simp at hv

/-- Counterexample to claim C7 as stated: on the day-0 data
`[(temp 10, wind 4, hum 50), (temp None, wind 0, hum None)]` the code's
windspeed mean uses only the truthy reading `4`, while the claim's
"present readings" mean also counts the `0.0` reading, giving mean `2`;
the two evaporation values differ. -/
theorem evaporation_present_mean_cex :
    get_evaporation [⟨0, some 10, some 4, some 50⟩, ⟨0, none, some 0, none⟩] 0 ≠
      some (evaporation_claim_value
        [⟨0, some 10, some 4, some 50⟩, ⟨0, none, some 0, none⟩] 0) := by
  have hv : daily_vpd [⟨0, some 10, some 4, some 50⟩, ⟨0, none, some 0, none⟩] =
      [(0, [calc_VPD ((10 : ℚ) : ℝ) (((50 : ℚ) : ℝ) / 100)])] := by
    norm_num [daily_vpd, truthy, dictAppend]
  have hw : daily_windspeed [⟨0, some 10, some 4, some 50⟩, ⟨0, none, some 0, none⟩] =
      [(0, [((4 : ℚ) : ℝ)])] := by
    norm_num [daily_windspeed, truthy, dictAppend]
  have hg : get_evaporation [⟨0, some 10, some 4, some 50⟩, ⟨0, none, some 0, none⟩] 0 =
      some (penman_evaporation (mean [calc_VPD ((10 : ℚ) : ℝ) (((50 : ℚ) : ℝ) / 100)])
        (mean [((4 : ℚ) : ℝ)])) := by
    unfold get_evaporation
    rw [hv, hw]
    simp [dlookup]
  have hc : evaporation_claim_value
      [⟨0, some 10, some 4, some 50⟩, ⟨0, none, some 0, none⟩] 0 =
      0.376 * (vp_sat ((10 : ℚ) : ℝ) * (1 - ((50 : ℚ) : ℝ) / 100)) *
        Real.rpow ((2 : ℝ) * 2.23693629205) 0.76 := by
    unfold evaporation_claim_value windspeed_values
    norm_num [List.filter, mean, List.sum]
  have hm1 : mean [calc_VPD ((10 : ℚ) : ℝ) (((50 : ℚ) : ℝ) / 100)] =
      calc_VPD ((10 : ℚ) : ℝ) (((50 : ℚ) : ℝ) / 100) := by
    simp [mean]
  have hm4 : mean [((4 : ℚ) : ℝ)] = ((4 : ℚ) : ℝ) := by
    simp [mean]
  have hv2 : calc_VPD ((10 : ℚ) : ℝ) (((50 : ℚ) : ℝ) / 100) =
      vp_sat ((10 : ℚ) : ℝ) * (1 - ((50 : ℚ) : ℝ) / 100) := by
    rw [calc_VPD]
    ring
  rw [hg, hc]
  simp only [ne_eq, Option.some.injEq]
  rw [penman_evaporation, hm1, hm4, hv2, show ((4 : ℚ) : ℝ) = (4 : ℝ) from by norm_num]
  intro heq
  have hA : (0 : ℝ) < vp_sat ((10 : ℚ) : ℝ) := by
    unfold vp_sat
    positivity
  have hr : Real.rpow ((2 : ℝ) * 2.23693629205) 0.76 <
      Real.rpow ((4 : ℝ) * 2.23693629205) 0.76 :=
    Real.rpow_lt_rpow (by norm_num) (by norm_num) (by norm_num)
  rw [show ((50 : ℚ) : ℝ) = (50 : ℝ) from by norm_num] at heq
  nlinarith [heq, mul_pos hA (sub_pos.mpr hr)]

end Climax

